import Mathlib

/-!
# Quest & Achievement Progression Engine — shallow embedding

This file embeds the progression-engine subsystem of the
`Web2Bizz/atom-dbro-admin-api` repository in Lean 4 and proves the
specification claims about it.

The embedding follows the TypeScript source:

* `src/src/quest/quest.repository.ts` — `QuestRepository` (drizzle row
  operations) and `QuestService` (`create`, `update`, `joinQuest`,
  `leaveQuest`, `completeQuest`, `updateRequirementCurrentValue`,
  `archiveQuest`, `unarchiveQuest`, `remove`);
* `src/src/achievement/achievement.service.ts` — `AchievementService`
  (`create`, `update`);
* `src/src/achievement/dto/update-achievement.dto.ts` — the zod refinement
  on `UpdateAchievementDto`.

The relational state is a record of lists of rows (`DB`).  Each service
operation is a function `DB → … → Except Err α × DB`: a thrown
`HttpException` becomes `Except.error`, and — exactly as in the source,
where a throw does not roll back the statements already executed — the
returned state is the state at the moment of the throw, which may include
mutations performed before it.  SQL `NULL` semantics are preserved where
they matter: an equality comparison against a `NULL` value never matches
(`sqlEqOptNat`), and soft-deleted rows (`recordStatus = 'DELETED'`) are
filtered exactly where the source filters them.

Notes on parts of the repository outside `src/`:
* the drizzle schema file (`src/database/schema.ts`) is not in `src/`.
  Where its content is forced by type-checking of the code that is in
  `src/` we follow that evidence: `userAchievements.achievementId` must be
  a nullable column, because `QuestService.completeQuest` passes
  `quest.achievementId : number | null` to both `eq(...)` and
  `.values(...)` without a cast.  Row defaults (`recordStatus: 'CREATED'`,
  serial ids, `startedAt` stamped on insert) follow the spec's data model.
* `AchievementRepository` (`achievement.repository.ts`) is not in `src/`;
  its row operations are modelled from the spec's store contracts, see the
  doc comments on `achFindByTitle` etc.
-/

namespace AtomDbro

/-- A contact entry of a quest (`{ name, value }` in the row JSON). -/
structure Contact where
  name : String
  value : String
  deriving Repr, DecidableEq

/-- A step requirement, `{ currentValue, targetValue }`.  Both fields are
optional (`Option`) because the service reads them through the cast
`as { currentValue?: number; targetValue?: number }` and defends against
missing values. -/
structure Requirement where
  currentValue : Option Int
  targetValue : Option Int
  deriving Repr, DecidableEq

/-- One quest step, as stored in the `steps` JSON column. -/
structure Step where
  title : String
  description : Option String
  status : String
  progress : Int
  requirement : Option Requirement
  deadline : Option String
  deriving Repr, DecidableEq

/-- A `users` row (the fields the progression engine reads). -/
structure User where
  id : Nat
  level : Int
  experience : Int
  recordStatus : String
  deriving Repr, DecidableEq

/-- A `quests` row (`typeof quests.$inferSelect`). -/
structure Quest where
  id : Nat
  title : String
  description : Option String
  status : String
  experienceReward : Int
  achievementId : Option Nat
  ownerId : Nat
  cityId : Nat
  organizationTypeId : Option Nat
  latitude : Option String
  longitude : Option String
  address : Option String
  contacts : Option (List Contact)
  coverImage : Option String
  gallery : Option (List String)
  steps : Option (List Step)
  recordStatus : String
  createdAt : Int
  updatedAt : Int
  deriving Repr, DecidableEq

/-- A `userQuests` participation row. -/
structure UserQuest where
  id : Nat
  userId : Nat
  questId : Nat
  status : String
  startedAt : Option Int
  completedAt : Option Int
  deriving Repr, DecidableEq

/-- An `achievements` row. -/
structure Achievement where
  id : Nat
  title : String
  description : Option String
  icon : Option String
  rarity : String
  questId : Option Nat
  recordStatus : String
  deriving Repr, DecidableEq

/-- A `userAchievements` grant row.  `achievementId` is `Option Nat`:
`completeQuest` inserts `quest.achievementId` (of TS type
`number | null`) into this column without a cast, so the column is
nullable in the schema. -/
structure UserAchievement where
  id : Nat
  userId : Nat
  achievementId : Option Nat
  deriving Repr, DecidableEq

/-- A `cities` row (fields read by the quest engine). -/
structure City where
  id : Nat
  name : String
  latitude : Option String
  longitude : Option String
  recordStatus : String
  deriving Repr, DecidableEq

/-- An `organizationTypes` row. -/
structure OrgType where
  id : Nat
  recordStatus : String
  deriving Repr, DecidableEq

/-- A `categories` row. -/
structure Category where
  id : Nat
  recordStatus : String
  deriving Repr, DecidableEq

/-- A `questCategories` association row. -/
structure QuestCategory where
  questId : Nat
  categoryId : Nat
  deriving Repr, DecidableEq

/-- A domain event emitted through `QuestEventsService`.  The payload we
track is what the claims inspect: the ids and, for `RequirementUpdated`,
the full steps sequence passed to `emitRequirementUpdated`. -/
inductive Event where
  | questCreated (questId : Nat)
  | userJoined (questId userId : Nat)
  | questCompleted (questId userId : Nat)
  | requirementUpdated (questId : Nat) (steps : Option (List Step))
  deriving Repr, DecidableEq

/-- An `HttpException` thrown by the service layer. -/
inductive Err where
  | notFound (msg : String)
  | badRequest (msg : String)
  | conflict (msg : String)
  | forbidden (msg : String)
  deriving Repr, DecidableEq

instance {ε α : Type} [DecidableEq ε] [DecidableEq α] : DecidableEq (Except ε α) := fun x y =>
  match x, y with
  | Except.error a, Except.error b =>
    if h : a = b then isTrue (by rw [h]) else isFalse (by intro hc; cases hc; exact h rfl)
  | Except.ok a, Except.ok b =>
    if h : a = b then isTrue (by rw [h]) else isFalse (by intro hc; cases hc; exact h rfl)
  | Except.error _, Except.ok _ => isFalse (by intro hc; cases hc)
  | Except.ok _, Except.error _ => isFalse (by intro hc; cases hc)

/-- The relational state: one list of rows per table, the emitted events,
and the serial-id counters of the tables the engine inserts into. -/
structure DB where
  users : List User
  cities : List City
  organizationTypes : List OrgType
  categories : List Category
  quests : List Quest
  userQuests : List UserQuest
  achievements : List Achievement
  userAchievements : List UserAchievement
  questCategories : List QuestCategory
  events : List Event
  nextQuestId : Nat
  nextUserQuestId : Nat
  nextAchievementId : Nat
  nextUserAchievementId : Nat
  deriving Repr, DecidableEq

/-- SQL equality against possibly-`NULL` operands: `x = NULL` is never
true, matching PostgreSQL three-valued logic for the drizzle `eq` calls
that receive a nullable value. -/
def sqlEqOptNat : Option Nat → Option Nat → Bool
  | some a, some b => a == b
  | _, _ => false

/-- Source: `select().from(users).where(eq(users.id, id), ne(users.recordStatus, 'DELETED'))`. -/
def findUserAlive (s : DB) (id : Nat) : Option User :=
  s.users.find? (fun u => u.id == id && u.recordStatus != "DELETED")

/-- Source: `QuestRepository.findByIdBasic`: the quest row by id, excluding deleted. -/
def findByIdBasic (s : DB) (id : Nat) : Option Quest :=
  s.quests.find? (fun q => q.id == id && q.recordStatus != "DELETED")

/-- Source: `QuestRepository.findById`: the quest with relations.  The query
inner-joins `users` on `ownerId` with `recordStatus ≠ 'DELETED'`, so it
yields a row only when the owner is alive; the left joins
(city, organization type, achievement) never filter the quest out. -/
def findByIdWithOwner (s : DB) (id : Nat) : Option Quest :=
  match findByIdBasic s id with
  | none => none
  | some q =>
    match findUserAlive s q.ownerId with
    | none => none
    | some _ => some q

/-- Source: `QuestRepository.findUserQuest`: participation row by (user, quest);
the source applies no `recordStatus` filter (the table is hard-deleted). -/
def findUserQuest (s : DB) (userId questId : Nat) : Option UserQuest :=
  s.userQuests.find? (fun uq => uq.userId == userId && uq.questId == questId)

/-- Source: `select().from(cities).where(eq(id), ne(recordStatus,'DELETED'))`. -/
def findCityAlive (s : DB) (id : Nat) : Option City :=
  s.cities.find? (fun c => c.id == id && c.recordStatus != "DELETED")

/-- Source: `select().from(organizationTypes).where(eq(id), ne(recordStatus,'DELETED'))`. -/
def findOrgTypeAlive (s : DB) (id : Nat) : Option OrgType :=
  s.organizationTypes.find? (fun t => t.id == id && t.recordStatus != "DELETED")

/-- Source: `select().from(achievements).where(eq(id), ne(recordStatus,'DELETED'))`. -/
def findAchievementAlive (s : DB) (id : Nat) : Option Achievement :=
  s.achievements.find? (fun a => a.id == id && a.recordStatus != "DELETED")

/-- The categories-existence check used by create/update: all the given
ids must denote non-deleted `categories` rows (the source compares the
row count of an `inArray` select with the id count; for distinct ids this
is exactly "every id has a live row"). -/
def allCategoriesAlive (s : DB) (ids : List Nat) : Bool :=
  ids.all (fun i => (s.categories.find? (fun c => c.id == i && c.recordStatus != "DELETED")).isSome)

/-- Source: `QuestService.findOne` re-fetches via `QuestRepository.findById` and
throws `NotFound` when the join yields nothing. -/
def findOne (s : DB) (id : Nat) : Except Err Quest :=
  match findByIdWithOwner s id with
  | none => Except.error (Err.notFound ("Квест с ID " ++ toString id ++ " не найден"))
  | some q => Except.ok q

/-- Source: `QuestService.completeQuest(userId, questId)`:
user alive → quest alive → participation exists → not already completed,
then mark completed, credit experience (computed from the user row read
at the start), conditionally insert the achievement grant (the existence
check compares `userAchievements.achievementId` with the possibly-`NULL`
`quest.achievementId`), and emit `QuestCompleted`. -/
def completeQuest (s : DB) (userId questId : Nat) (now : Int) :
    Except Err UserQuest × DB :=
  match findUserAlive s userId with
  | none =>
    (Except.error (Err.notFound ("Пользователь с ID " ++ toString userId ++ " не найден")), s)
  | some user =>
    match findByIdBasic s questId with
    | none =>
      (Except.error (Err.notFound ("Квест с ID " ++ toString questId ++ " не найден")), s)
    | some quest =>
      match findUserQuest s userId questId with
      | none =>
        (Except.error (Err.notFound "Пользователь не начал этот квест"), s)
      | some userQuest =>
        if userQuest.status == "completed" then
          (Except.error (Err.conflict "Квест уже выполнен"), s)
        else
          let uq' : UserQuest := { userQuest with status := "completed", completedAt := some now }
          let s1 : DB := { s with
            userQuests := s.userQuests.map (fun r => if r.id == userQuest.id then uq' else r) }
          let s2 : DB := { s1 with
            users := s1.users.map (fun u =>
              if u.id == userId then { u with experience := user.experience + quest.experienceReward } else u) }
          let existing := s2.userAchievements.find?
            (fun ua => ua.userId == userId && sqlEqOptNat ua.achievementId quest.achievementId)
          let s3 : DB :=
            if existing.isSome then s2
            else { s2 with
              userAchievements := s2.userAchievements ++
                [{ id := s2.nextUserAchievementId, userId := userId,
                   achievementId := quest.achievementId }],
              nextUserAchievementId := s2.nextUserAchievementId + 1 }
          let s4 : DB := { s3 with events := s3.events ++ [Event.questCompleted questId userId] }
          (Except.ok uq', s4)

/-- Source: `QuestService.joinQuest(userId, questId)`:
user alive → quest alive → quest active → no existing participation row,
then insert an `in_progress` row and emit `UserJoined`. -/
def joinQuest (s : DB) (userId questId : Nat) (now : Int) :
    Except Err UserQuest × DB :=
  match findUserAlive s userId with
  | none =>
    (Except.error (Err.notFound ("Пользователь с ID " ++ toString userId ++ " не найден")), s)
  | some _ =>
    match findByIdBasic s questId with
    | none =>
      (Except.error (Err.notFound ("Квест с ID " ++ toString questId ++ " не найден")), s)
    | some quest =>
      if quest.status != "active" then
        (Except.error (Err.badRequest "Квест не доступен для выполнения"), s)
      else
        match findUserQuest s userId questId with
        | some _ =>
          (Except.error (Err.conflict "Пользователь уже присоединился к этому квесту"), s)
        | none =>
          let uq : UserQuest :=
            { id := s.nextUserQuestId, userId := userId, questId := questId,
              status := "in_progress", startedAt := some now, completedAt := none }
          let s1 : DB := { s with
            userQuests := s.userQuests ++ [uq],
            nextUserQuestId := s.nextUserQuestId + 1 }
          let s2 : DB := { s1 with events := s1.events ++ [Event.userJoined questId userId] }
          (Except.ok uq, s2)

/-- Source: `QuestService.leaveQuest(userId, questId)`:
user alive → quest alive → participation exists → not completed, then
hard-delete the participation row. -/
def leaveQuest (s : DB) (userId questId : Nat) :
    Except Err UserQuest × DB :=
  match findUserAlive s userId with
  | none =>
    (Except.error (Err.notFound ("Пользователь с ID " ++ toString userId ++ " не найден")), s)
  | some _ =>
    match findByIdBasic s questId with
    | none =>
      (Except.error (Err.notFound ("Квест с ID " ++ toString questId ++ " не найден")), s)
    | some _ =>
      match findUserQuest s userId questId with
      | none =>
        (Except.error (Err.notFound "Пользователь не участвует в этом квесте"), s)
      | some userQuest =>
        if userQuest.status == "completed" then
          (Except.error (Err.badRequest "Нельзя покинуть уже завершенный квест"), s)
        else
          let s1 : DB := { s with
            userQuests := s.userQuests.filter (fun r => r.id != userQuest.id) }
          (Except.ok userQuest, s1)


/-- Source: `QuestService.remove(id)` / `QuestRepository.softDelete`: mark the
quest `DELETED` (404 when already absent or deleted). -/
def removeQuest (s : DB) (id : Nat) (now : Int) : Except Err Quest × DB :=
  match findByIdBasic s id with
  | none =>
    (Except.error (Err.notFound ("Квест с ID " ++ toString id ++ " не найден")), s)
  | some q =>
    let q' : Quest := { q with recordStatus := "DELETED", updatedAt := now }
    let s1 : DB := { s with
      quests := s.quests.map (fun r => if r.id == id && r.recordStatus != "DELETED" then q' else r) }
    (Except.ok q', s1)

/-- Source: `QuestService.updateRequirementCurrentValue(questId, stepIndex, dto)`.
The `UpdateRequirementDto` carries the single field `currentValue`, passed
here as `newCurrentValue`.  Validation order follows the source: quest
exists → status `active` → steps present → index in range → step has a
requirement → requirement has a `targetValue` → `newCurrentValue ≥ 0` →
`newCurrentValue ≤ targetValue`.  On success only the addressed step's
requirement `currentValue` is replaced (copy-on-write of the steps array),
the quest is persisted, `RequirementUpdated` is emitted with the updated
steps, and the quest is re-fetched via `findOne`. -/
def updateRequirementCurrentValue (s : DB) (questId : Nat) (stepIndex : Int)
    (newCurrentValue : Int) (now : Int) : Except Err Quest × DB :=
  match findByIdBasic s questId with
  | none =>
    (Except.error (Err.notFound ("Квест с ID " ++ toString questId ++ " не найден")), s)
  | some quest =>
    if quest.status != "active" then
      (Except.error (Err.badRequest
        ("Квест со статусом '" ++ quest.status ++ "' не может быть изменен")), s)
    else
      match quest.steps with
      | none => (Except.error (Err.badRequest "У квеста нет этапов"), s)
      | some steps =>
        if stepIndex < 0 || stepIndex ≥ (steps.length : Int) then
          (Except.error (Err.badRequest
            ("Индекс этапа " ++ toString stepIndex ++
             " выходит за границы массива этапов (длина: " ++ toString steps.length ++ ")")), s)
        else
          match steps.get? stepIndex.toNat with
          | none =>
            -- defensive `if (!step)` in the source; unreachable once the index is in range
            (Except.error (Err.badRequest
              ("Этап с индексом " ++ toString stepIndex ++ " не найден")), s)
          | some step =>
            match step.requirement with
            | none =>
              (Except.error (Err.badRequest
                ("У этапа с индексом " ++ toString stepIndex ++ " нет требования")), s)
            | some requirement =>
              match requirement.targetValue with
              | none =>
                (Except.error (Err.badRequest "У требования отсутствует targetValue"), s)
              | some targetValue =>
                if newCurrentValue < 0 then
                  (Except.error (Err.badRequest
                    "currentValue должен быть неотрицательным числом"), s)
                else if newCurrentValue > targetValue then
                  (Except.error (Err.badRequest
                    ("currentValue (" ++ toString newCurrentValue ++
                     ") не может превышать targetValue (" ++ toString targetValue ++ ")")), s)
                else
                  let newStep : Step := { step with
                    requirement := some { requirement with currentValue := some newCurrentValue } }
                  let updatedSteps := steps.set stepIndex.toNat newStep
                  let quest' : Quest := { quest with steps := some updatedSteps, updatedAt := now }
                  let s1 : DB := { s with
                    quests := s.quests.map (fun r =>
                      if r.id == questId && r.recordStatus != "DELETED" then quest' else r) }
                  let s2 : DB := { s1 with
                    events := s1.events ++ [Event.requirementUpdated questId quest'.steps] }
                  match findOne s2 questId with
                  | Except.error e => (Except.error e, s2)
                  | Except.ok q => (Except.ok q, s2)

/-- Source: `QuestService.archiveQuest(id)`: existence check, write status
`archived`, re-fetch via `findOne`. -/
def archiveQuest (s : DB) (id : Nat) (now : Int) : Except Err Quest × DB :=
  match findByIdBasic s id with
  | none =>
    (Except.error (Err.notFound ("Квест с ID " ++ toString id ++ " не найден")), s)
  | some q =>
    let q' : Quest := { q with status := "archived", updatedAt := now }
    let s1 : DB := { s with
      quests := s.quests.map (fun r =>
        if r.id == id && r.recordStatus != "DELETED" then q' else r) }
    match findOne s1 id with
    | Except.error e => (Except.error e, s1)
    | Except.ok qq => (Except.ok qq, s1)

/-- Source: `QuestService.unarchiveQuest(id)`: existence check, write status
`active`, re-fetch via `findOne`. -/
def unarchiveQuest (s : DB) (id : Nat) (now : Int) : Except Err Quest × DB :=
  match findByIdBasic s id with
  | none =>
    (Except.error (Err.notFound ("Квест с ID " ++ toString id ++ " не найден")), s)
  | some q =>
    let q' : Quest := { q with status := "active", updatedAt := now }
    let s1 : DB := { s with
      quests := s.quests.map (fun r =>
        if r.id == id && r.recordStatus != "DELETED" then q' else r) }
    match findOne s1 id with
    | Except.error e => (Except.error e, s1)
    | Except.ok qq => (Except.ok qq, s1)

/-- Source: `UpdateQuestDto`: `none` means the field is absent from the patch
(`undefined`); for nullable columns the inner `Option` distinguishes an
explicit `null` from a value.  `cityId` is modelled as present-or-absent
only: the row column is non-nullable (`cityId: number` in
`QuestWithRelations`), so the service's explicit-`null` branch would be a
storage-level constraint violation and no claim exercises it.
`latitude`/`longitude` arrive as numbers and are stringified by the
service (`updateQuestDto.latitude.toString()`). -/
structure UpdateQuestDto where
  title : Option String := none
  description : Option (Option String) := none
  status : Option String := none
  experienceReward : Option Int := none
  achievementId : Option (Option Nat) := none
  cityId : Option Nat := none
  organizationTypeId : Option (Option Nat) := none
  latitude : Option Int := none
  longitude : Option Int := none
  address : Option (Option String) := none
  contacts : Option (Option (List Contact)) := none
  coverImage : Option (Option String) := none
  gallery : Option (Option (List String)) := none
  steps : Option (Option (List Step)) := none
  categoryIds : Option (List Nat) := none
  deriving Repr, DecidableEq

/-- The `updateData` object built field-by-field by `QuestService.update`
and applied by `QuestRepository.update` (`set({ ...data, updatedAt })`):
only fields present in the patch are written. -/
def buildQuestUpdate (q : Quest) (dto : UpdateQuestDto) (now : Int) : Quest :=
  { q with
    title := dto.title.getD q.title,
    description := dto.description.getD q.description,
    status := dto.status.getD q.status,
    experienceReward := dto.experienceReward.getD q.experienceReward,
    achievementId := dto.achievementId.getD q.achievementId,
    cityId := dto.cityId.getD q.cityId,
    organizationTypeId := dto.organizationTypeId.getD q.organizationTypeId,
    latitude := match dto.latitude with | some x => some (toString x) | none => q.latitude,
    longitude := match dto.longitude with | some x => some (toString x) | none => q.longitude,
    address := dto.address.getD q.address,
    contacts := dto.contacts.getD q.contacts,
    coverImage := dto.coverImage.getD q.coverImage,
    gallery := dto.gallery.getD q.gallery,
    steps := dto.steps.getD q.steps,
    updatedAt := now }

/-- JS truthiness of `step?.requirement`. -/
def reqPresent : Option Requirement → Bool
  | some _ => true
  | none => false

/-- The per-index requirement comparison of `QuestService.update`:
`currentValue`/`targetValue` changed (a defined new value differing from
the old one). -/
def reqPairChanged (newReq oldReq : Requirement) : Bool :=
  (newReq.currentValue.isSome && newReq.currentValue != oldReq.currentValue) ||
  (newReq.targetValue.isSome && newReq.targetValue != oldReq.targetValue)

/-- One iteration of the steps-diff loop: requirement added/removed at
this index, or both present and changed. -/
def stepPairChanged (newStep? oldStep? : Option Step) : Bool :=
  let hasNew := match newStep? with | some st => reqPresent st.requirement | none => false
  let hasOld := match oldStep? with | some st => reqPresent st.requirement | none => false
  if hasNew != hasOld then true
  else
    match newStep?, oldStep? with
    | some ns, some os =>
      match ns.requirement, os.requirement with
      | some nr, some oreq => reqPairChanged nr oreq
      | _, _ => false
    | _, _ => false

/-- The `requirementsChanged` flag of `QuestService.update` (computed only
when `steps` is present in the patch): pairwise diff by index when both
sides are arrays, otherwise "any requirement on the side that exists". -/
def requirementsChangedCalc (oldSteps? newSteps? : Option (List Step)) : Bool :=
  match oldSteps?, newSteps? with
  | some oldSteps, some newSteps =>
    (List.range (max oldSteps.length newSteps.length)).any
      (fun i => stepPairChanged (newSteps.get? i) (oldSteps.get? i))
  | none, some newSteps => newSteps.any (fun st => reqPresent st.requirement)
  | some oldSteps, none => oldSteps.any (fun st => reqPresent st.requirement)
  | none, none => false

/-- The `achievementId` existence check of `QuestService.update` (a
present, non-null id must denote a live achievement). -/
def updateAchIdCheck (s : DB) (dto : UpdateQuestDto) : Option Err :=
  match dto.achievementId with
  | some (some a) =>
    if (findAchievementAlive s a).isSome then none
    else some (Err.notFound ("Достижение с ID " ++ toString a ++ " не найдено"))
  | _ => none

/-- The `cityId` existence check of `QuestService.update`. -/
def updateCityCheck (s : DB) (dto : UpdateQuestDto) : Option Err :=
  match dto.cityId with
  | some c =>
    if (findCityAlive s c).isSome then none
    else some (Err.notFound ("Город с ID " ++ toString c ++ " не найден"))
  | none => none

/-- The `organizationTypeId` existence check of `QuestService.update`
(explicit `null` skips the check). -/
def updateOrgTypeCheck (s : DB) (dto : UpdateQuestDto) : Option Err :=
  match dto.organizationTypeId with
  | some (some t) =>
    if (findOrgTypeAlive s t).isSome then none
    else some (Err.notFound ("Тип организации с ID " ++ toString t ++ " не найден"))
  | _ => none

/-- The gallery-size check of `QuestService.update`:
`if (gallery && gallery.length > 10)` — `null` and `[]` pass. -/
def updateGalleryCheck (dto : UpdateQuestDto) : Option Err :=
  match dto.gallery with
  | some (some l) =>
    if l.length > 10 then some (Err.badRequest "Галерея не может содержать более 10 изображений")
    else none
  | _ => none

/-- The trailing `return this.findOne(id)` of the mutating quest
operations: the result is the re-fetched quest, the state is unchanged. -/
def finishWithFindOne (s : DB) (id : Nat) : Except Err Quest × DB :=
  match findOne s id with
  | Except.error e => (Except.error e, s)
  | Except.ok q => (Except.ok q, s)

/-- Source: `QuestService.update(id, patch)`: existence check, `achievementId`
check, field-by-field `updateData` construction with the inline
city/organization-type/gallery validations (all of which precede the
write), the steps diff, the quest-row write, the conditional
`RequirementUpdated` emission, the category re-association (delete all →
validate non-empty set → recreate, with the validation occurring after
the deletion and after the quest write), and the final re-fetch. -/
def updateQuest (s : DB) (id : Nat) (dto : UpdateQuestDto) (now : Int) :
    Except Err Quest × DB :=
  match findByIdBasic s id with
  | none =>
    (Except.error (Err.notFound ("Квест с ID " ++ toString id ++ " не найден")), s)
  | some existingQuest =>
    match updateAchIdCheck s dto with
    | some e => (Except.error e, s)
    | none =>
      match updateCityCheck s dto with
      | some e => (Except.error e, s)
      | none =>
        match updateOrgTypeCheck s dto with
        | some e => (Except.error e, s)
        | none =>
          match updateGalleryCheck dto with
          | some e => (Except.error e, s)
          | none =>
            let requirementsChanged :=
              match dto.steps with
              | some newSteps? => requirementsChangedCalc existingQuest.steps newSteps?
              | none => false
            let quest' := buildQuestUpdate existingQuest dto now
            let s1 : DB := { s with
              quests := s.quests.map (fun r =>
                if r.id == id && r.recordStatus != "DELETED" then quest' else r) }
            let s2 : DB :=
              if requirementsChanged then
                { s1 with events := s1.events ++ [Event.requirementUpdated id quest'.steps] }
              else s1
            match dto.categoryIds with
            | none => finishWithFindOne s2 id
            | some ids =>
              let s3 : DB := { s2 with
                questCategories := s2.questCategories.filter (fun qc => qc.questId != id) }
              if ids.length > 0 then
                if allCategoriesAlive s3 ids then
                  let s4 : DB := { s3 with
                    questCategories := s3.questCategories ++
                      ids.map (fun cid => { questId := id, categoryId := cid }) }
                  finishWithFindOne s4 id
                else
                  (Except.error (Err.notFound "Одна или несколько категорий не найдены"), s3)
              else finishWithFindOne s3 id

/-- The inline achievement payload of `CreateQuestDto`. -/
structure CreateAchievementPayload where
  title : String
  description : Option String := none
  icon : Option String := none
  deriving Repr, DecidableEq

/-- Source: `CreateQuestDto` (the fields `QuestService.create` reads). -/
structure CreateQuestDto where
  title : String
  description : Option String := none
  status : Option String := none
  experienceReward : Option Int := none
  cityId : Nat
  organizationTypeId : Option Nat := none
  latitude : Option Int := none
  longitude : Option Int := none
  address : Option String := none
  contacts : Option (List Contact) := none
  coverImage : Option String := none
  gallery : Option (List String) := none
  steps : Option (List Step) := none
  achievement : Option CreateAchievementPayload := none
  categoryIds : Option (List Nat) := none
  deriving Repr, DecidableEq

/-- The `organizationTypeId` existence check of `QuestService.create`. -/
def createOrgTypeCheck (s : DB) (dto : CreateQuestDto) : Option Err :=
  match dto.organizationTypeId with
  | some t =>
    if (findOrgTypeAlive s t).isSome then none
    else some (Err.notFound ("Тип организации с ID " ++ toString t ++ " не найден"))
  | none => none

/-- The categories existence check of `QuestService.create`
(`if (categoryIds && categoryIds.length > 0)`). -/
def createCategoriesCheck (s : DB) (ids? : Option (List Nat)) : Option Err :=
  match ids? with
  | some ids =>
    if ids.length > 0 && !(allCategoriesAlive s ids) then
      some (Err.notFound "Одна или несколько категорий не найдены")
    else none
  | none => none

/-- The gallery-size check of `QuestService.create`. -/
def createGalleryCheck (g? : Option (List String)) : Option Err :=
  match g? with
  | some l =>
    if l.length > 10 then some (Err.badRequest "Галерея не может содержать более 10 изображений")
    else none
  | none => none

/-- Source: `QuestService.create(dto, userId)`.  Order follows the source: user
alive → level ≥ 5 → **inline achievement insert** (before the remaining
validations!) → city exists → organization type exists → categories exist
→ gallery ≤ 10 → quest insert → achievement `questId` back-patch →
category associations → re-fetch → creator auto-join (no existence
check) → emit `UserJoined` then `QuestCreated`.
`status || 'active'` and `experienceReward || 0` use JS truthiness
(the empty string and `0` fall back). -/
def createQuest (s : DB) (dto : CreateQuestDto) (userId : Nat) (now : Int) :
    Except Err Quest × DB :=
  match findUserAlive s userId with
  | none =>
    (Except.error (Err.notFound ("Пользователь с ID " ++ toString userId ++ " не найден")), s)
  | some user =>
    if user.level < 5 then
      (Except.error (Err.forbidden "Для создания квеста требуется уровень 5 или выше"), s)
    else
      let achievementId : Option Nat :=
        match dto.achievement with
        | some _ => some s.nextAchievementId
        | none => none
      let s1 : DB :=
        match dto.achievement with
        | some payload =>
          { s with
            achievements := s.achievements ++
              [{ id := s.nextAchievementId, title := payload.title,
                 description := payload.description, icon := payload.icon,
                 rarity := "private", questId := none, recordStatus := "CREATED" }],
            nextAchievementId := s.nextAchievementId + 1 }
        | none => s
      match findCityAlive s1 dto.cityId with
      | none =>
        (Except.error (Err.notFound ("Город с ID " ++ toString dto.cityId ++ " не найден")), s1)
      | some city =>
        match createOrgTypeCheck s1 dto with
        | some e => (Except.error e, s1)
        | none =>
          match createCategoriesCheck s1 dto.categoryIds with
          | some e => (Except.error e, s1)
          | none =>
            match createGalleryCheck dto.gallery with
            | some e => (Except.error e, s1)
            | none =>
              let latitude : Option String :=
                match dto.latitude with | some x => some (toString x) | none => city.latitude
              let longitude : Option String :=
                match dto.longitude with | some x => some (toString x) | none => city.longitude
              let quest : Quest :=
                { id := s1.nextQuestId,
                  title := dto.title,
                  description := dto.description,
                  status := match dto.status with
                    | some st => if st == "" then "active" else st
                    | none => "active",
                  experienceReward := dto.experienceReward.getD 0,
                  achievementId := achievementId,
                  ownerId := userId,
                  cityId := dto.cityId,
                  organizationTypeId := dto.organizationTypeId,
                  latitude := latitude,
                  longitude := longitude,
                  address := dto.address,
                  contacts := dto.contacts,
                  coverImage := dto.coverImage,
                  gallery := dto.gallery,
                  steps := dto.steps,
                  recordStatus := "CREATED",
                  createdAt := now,
                  updatedAt := now }
              let s2 : DB := { s1 with
                quests := s1.quests ++ [quest],
                nextQuestId := s1.nextQuestId + 1 }
              let s3 : DB :=
                match achievementId with
                | some aid =>
                  -- `update(achievements).set({ questId }).where(eq(achievements.id, aid))`
                  -- — no DELETED filter on this back-patch
                  { s2 with
                    achievements := s2.achievements.map (fun a =>
                      if a.id == aid then { a with questId := some quest.id } else a) }
                | none => s2
              let s4 : DB :=
                match dto.categoryIds with
                | some ids =>
                  if ids.length > 0 then
                    { s3 with
                      questCategories := s3.questCategories ++
                        ids.map (fun cid => { questId := quest.id, categoryId := cid }) }
                  else s3
                | none => s3
              -- the relations re-fetch succeeds: the owner was checked alive above
              let uq : UserQuest :=
                { id := s4.nextUserQuestId, userId := userId, questId := quest.id,
                  status := "in_progress", startedAt := some now, completedAt := none }
              let s5 : DB := { s4 with
                userQuests := s4.userQuests ++ [uq],
                nextUserQuestId := s4.nextUserQuestId + 1 }
              let s6 : DB := { s5 with
                events := s5.events ++ [Event.userJoined quest.id userId,
                                        Event.questCreated quest.id] }
              (Except.ok quest, s6)

/-- Source: `CreateAchievementDto` (the fields `AchievementService.create` reads).
`questId = none` covers both an absent and an explicit-`null` id. -/
structure CreateAchievementDto where
  title : String
  description : Option String := none
  icon : Option String := none
  rarity : String
  questId : Option Nat := none
  deriving Repr, DecidableEq

/-- Source: `UpdateAchievementDto`: `none` = field absent; for `questId` the inner
`Option` distinguishes an explicit `null` from a value. -/
structure UpdateAchievementDto where
  title : Option String := none
  description : Option String := none
  icon : Option String := none
  rarity : Option String := none
  questId : Option (Option Nat) := none
  deriving Repr, DecidableEq

/-- Modelled from the spec: `AchievementRepository.findByTitle`
("title globally unique among non-deleted") — the first non-deleted
achievement with the given title. -/
def achFindByTitle (s : DB) (t : String) : Option Achievement :=
  s.achievements.find? (fun a => a.title == t && a.recordStatus != "DELETED")

/-- Modelled from the spec: `AchievementRepository.findByTitleExcludingId`
— as `achFindByTitle` but ignoring the row being updated. -/
def achFindByTitleExcludingId (s : DB) (t : String) (id : Nat) : Option Achievement :=
  s.achievements.find? (fun a => a.title == t && a.id != id && a.recordStatus != "DELETED")

/-- Modelled from the spec: `AchievementRepository.findQuestById` — the
referenced quest must exist and not be soft-deleted ("references an
existing, non-deleted quest"). -/
def achFindQuestById (s : DB) (id : Nat) : Option Quest :=
  findByIdBasic s id

/-- Modelled from the spec: `AchievementRepository.create` — insert a row
with the DTO fields and a fresh serial id. -/
def achInsert (s : DB) (dto : CreateAchievementDto) : Achievement × DB :=
  let a : Achievement :=
    { id := s.nextAchievementId, title := dto.title, description := dto.description,
      icon := dto.icon, rarity := dto.rarity, questId := dto.questId,
      recordStatus := "CREATED" }
  (a, { s with
    achievements := s.achievements ++ [a],
    nextAchievementId := s.nextAchievementId + 1 })

/-- Source: `AchievementService.create(dto)`: title unique among non-deleted →
`rarity = 'private'` requires a (truthy) `questId` denoting a live quest;
any other rarity forbids a supplied `questId`.  A `questId` of `0` is
falsy in the source's `!createAchievementDto.questId` test. -/
def achievementCreate (s : DB) (dto : CreateAchievementDto) :
    Except Err Achievement × DB :=
  match achFindByTitle s dto.title with
  | some _ => (Except.error (Err.conflict "Достижение с таким названием уже существует"), s)
  | none =>
    if dto.rarity == "private" then
      match dto.questId with
      | none =>
        (Except.error (Err.badRequest "Для rarity=\"private\" questId обязателен"), s)
      | some q =>
        if q == 0 then
          (Except.error (Err.badRequest "Для rarity=\"private\" questId обязателен"), s)
        else
          match achFindQuestById s q with
          | none =>
            (Except.error (Err.notFound ("Квест с ID " ++ toString q ++ " не найден")), s)
          | some _ =>
            let (a, s') := achInsert s dto
            (Except.ok a, s')
    else
      match dto.questId with
      | some _ =>
        (Except.error (Err.badRequest
          "Для rarity отличной от \"private\" questId должен быть null или отсутствовать"), s)
      | none =>
        let (a, s') := achInsert s dto
        (Except.ok a, s')

/-- The refinement of `updateAchievementSchema`
(`src/src/achievement/dto/update-achievement.dto.ts`): `questId` must be a
positive integer or `null`; a patch whose `rarity` is `'private'` may not
carry a null/falsy `questId`; a patch whose `rarity` is any other value
may not carry a non-null `questId`. -/
def updateAchievementZodOk (dto : UpdateAchievementDto) : Bool :=
  (match dto.questId with | some (some n) => decide (1 ≤ n) | _ => true) &&
  (match dto.rarity with
   | some r => r == "common" || r == "epic" || r == "rare" || r == "legendary" || r == "private"
   | none => true) &&
  !(dto.rarity == some "private" &&
    (match dto.questId with | some none => true | some (some 0) => true | _ => false)) &&
  !(match dto.rarity, dto.questId with
    | some r, some (some _) => r != "private"
    | _, _ => false)

/-- Modelled from the spec: `AchievementRepository.update` — apply the
present DTO fields to the non-deleted row (`questId = some none` writes
`null`). -/
def applyAchUpdate (s : DB) (id : Nat) (current : Achievement)
    (dto : UpdateAchievementDto) : Except Err Achievement × DB :=
  let a' : Achievement := { current with
    title := dto.title.getD current.title,
    description := match dto.description with | some d => some d | none => current.description,
    icon := match dto.icon with | some i => some i | none => current.icon,
    rarity := dto.rarity.getD current.rarity,
    questId := dto.questId.getD current.questId }
  let s1 : DB := { s with
    achievements := s.achievements.map (fun a =>
      if a.id == id && a.recordStatus != "DELETED" then a' else a) }
  (Except.ok a', s1)

/-- Source: `AchievementService.update(id, dto)` (after DTO validation): load the
current row → title uniqueness (only for a truthy patch title) → the
rarity/questId rules on the *effective* rarity:
* effective `private`, `questId` present: must be a truthy id denoting a
  live quest;
* effective `private`, `questId` absent: fall back to the stored
  `questId`, error when there is none;
* patch rarity non-private: force `questId := null` before the write;
* rarity absent and stored rarity non-private: an explicit non-null
  `questId` is rejected. -/
def achievementServiceUpdate (s : DB) (id : Nat) (dto : UpdateAchievementDto) :
    Except Err Achievement × DB :=
  match findAchievementAlive s id with
  | none =>
    (Except.error (Err.notFound ("Достижение с ID " ++ toString id ++ " не найдено")), s)
  | some current =>
    if (match dto.title with
        | some t => t != "" && (achFindByTitleExcludingId s t id).isSome
        | none => false) then
      (Except.error (Err.conflict "Достижение с таким названием уже существует"), s)
    else
      let finalRarity := dto.rarity.getD current.rarity
      if finalRarity == "private" then
        match dto.questId with
        | some none =>
          (Except.error (Err.badRequest "Для rarity=\"private\" questId обязателен"), s)
        | some (some q) =>
          if q == 0 then
            (Except.error (Err.badRequest "Для rarity=\"private\" questId обязателен"), s)
          else
            match achFindQuestById s q with
            | none =>
              (Except.error (Err.notFound ("Квест с ID " ++ toString q ++ " не найден")), s)
            | some _ => applyAchUpdate s id current dto
        | none =>
          if current.questId == none then
            (Except.error (Err.badRequest "Для rarity=\"private\" questId обязателен"), s)
          else applyAchUpdate s id current dto
      else
        if (match dto.rarity with | some r => r != "private" | none => false) then
          -- rarity supplied non-private: the service force-nulls `questId`
          applyAchUpdate s id current { dto with questId := some none }
        else if (match dto.questId with | some (some _) => true | _ => false) then
          (Except.error (Err.badRequest
            "Для rarity отличной от \"private\" questId должен быть null или отсутствовать"), s)
        else applyAchUpdate s id current dto

/-- Source: `AchievementService.update` behind its DTO gate: the HTTP layer parses
the body with `updateAchievementSchema`, so the service only sees patches
satisfying the zod refinement; a failing parse is a `BadRequest` and
touches nothing. -/
def achievementUpdate (s : DB) (id : Nat) (dto : UpdateAchievementDto) :
    Except Err Achievement × DB :=
  if updateAchievementZodOk dto then achievementServiceUpdate s id dto
  else
    (Except.error (Err.badRequest
      "Для rarity=\"private\" questId обязателен. Для других значений rarity questId должен быть null или отсутствовать"), s)

/-- The rarity/quest-binding invariant of the spec (§3): a non-deleted
achievement has `rarity = 'private'` iff its `questId` is set and denotes
an existing, non-deleted quest, and "any other rarity requires `questId`
to be absent/null".  (The two clauses below imply the iff: a private row
has a live reference, and a non-private row has `questId = null`, which
can never be a live reference.) -/
def rarityQuestInvariant (s : DB) : Prop :=
  ∀ a ∈ s.achievements, a.recordStatus ≠ "DELETED" →
    ((a.rarity = "private" → ∃ q, a.questId = some q ∧ (findByIdBasic s q).isSome) ∧
     (a.rarity ≠ "private" → a.questId = none))

instance (s : DB) : Decidable (rarityQuestInvariant s) := by
  unfold rarityQuestInvariant
  infer_instance

/-! ## Concrete fixture states

Small concrete databases used by the witnesses and counterexamples. -/

/-- A live level-5 user. -/
def wUser : User := { id := 1, level := 5, experience := 0, recordStatus := "CREATED" }

/-- A step whose requirement is strictly below its target (3 of 10). -/
def wStep : Step :=
  { title := "S1", description := none, status := "pending", progress := 3,
    requirement := some { currentValue := some 3, targetValue := some 10 }, deadline := none }

/-- An active quest owned by `wUser`, reward 50, one step, no bound achievement. -/
def wQuest : Quest :=
  { id := 1, title := "Quest", description := none, status := "active", experienceReward := 50,
    achievementId := none, ownerId := 1, cityId := 1, organizationTypeId := none,
    latitude := none, longitude := none, address := none, contacts := none, coverImage := none,
    gallery := none, steps := some [wStep], recordStatus := "CREATED",
    createdAt := 0, updatedAt := 0 }

/-- A live city. -/
def wCity : City :=
  { id := 1, name := "Town", latitude := some "55", longitude := some "37",
    recordStatus := "CREATED" }

/-- Fixture: `wUser` participating in `wQuest`, in progress. -/
def wUserQuest : UserQuest :=
  { id := 1, userId := 1, questId := 1, status := "in_progress",
    startedAt := some 0, completedAt := none }

/-- The base fixture state. -/
def wDB : DB :=
  { users := [wUser], cities := [wCity], organizationTypes := [], categories := [],
    quests := [wQuest], userQuests := [wUserQuest], achievements := [], userAchievements := [],
    questCategories := [], events := [], nextQuestId := 2, nextUserQuestId := 2,
    nextAchievementId := 1, nextUserAchievementId := 1 }

/-- Fixture: `wDB` with the quest archived. -/
def wArchivedDB : DB := { wDB with quests := [{ wQuest with status := "archived" }] }

/-- The participation row after the first successful completion at time 5. -/
def wCompleted : UserQuest := { wUserQuest with status := "completed", completedAt := some 5 }

/-- The state after the first successful `completeQuest` on `wDB` at time 5. -/
def wDB1 : DB := (completeQuest wDB 1 1 5).2

/-- Fixture: `wDB` with the quest's owner soft-deleted (the quest row itself is alive). -/
def wOwnerGoneDB : DB := { wDB with users := [{ wUser with recordStatus := "DELETED" }] }

/-- A create payload carrying an inline achievement and a dangling `cityId`. -/
def wBadCityDto : CreateQuestDto :=
  { title := "T", cityId := 99, achievement := some { title := "A" } }

/-- A private achievement bound to the fixture quest. -/
def wAch : Achievement :=
  { id := 1, title := "A", description := none, icon := none, rarity := "private",
    questId := some 1, recordStatus := "CREATED" }

/-- Fixture: `wDB` extended with `wAch`. -/
def wAchDB : DB := { wDB with achievements := [wAch], nextAchievementId := 2 }

/-! ## Support lemmas -/

/-- Lemma: `find?` commutes with a `map` that does not disturb the predicate. -/
theorem find?_map_congr {α : Type} (l : List α) (p : α → Bool) (f : α → α)
    (h : ∀ a, p (f a) = p a) :
    (l.map f).find? p = (l.find? p).map f := by
  induction l with
  | nil => simp
  | cons x t ih =>
    cases hx : p x with
    | true =>
      rw [List.map_cons, List.find?_cons_of_pos _ (by rw [h x, hx]),
        List.find?_cons_of_pos _ hx, Option.map_some']
    | false =>
      rw [List.map_cons, List.find?_cons_of_neg _ (by rw [h x, hx]; exact Bool.false_ne_true),
        List.find?_cons_of_neg _ (by rw [hx]; exact Bool.false_ne_true), ih]

/-- Lemma: `find?` after a `map` whose image is either the identity or a fixed
element `b` satisfying the predicate: when the original `find?` hits a
preimage of `b`, the mapped `find?` yields `b`. -/
theorem find?_map_replace {α : Type} (l : List α) (p : α → Bool) (f : α → α) (b : α)
    (hb : p b = true) (himg : ∀ a, f a = a ∨ f a = b)
    (hf : ∃ a, l.find? p = some a ∧ f a = b) :
    (l.map f).find? p = some b := by
  induction l with
  | nil => simp at hf
  | cons x t ih =>
    cases hx : p x with
    | true =>
      obtain ⟨a, ha, hfa⟩ := hf
      rw [List.find?_cons_of_pos _ hx] at ha
      obtain rfl : x = a := by injection ha
      rw [List.map_cons, List.find?_cons_of_pos _ (by rw [hfa, hb]), hfa]
    | false =>
      rw [List.find?_cons_of_neg _ (by rw [hx]; exact Bool.false_ne_true)] at hf
      rw [List.map_cons]
      rcases himg x with hfx | hfx
      · rw [List.find?_cons_of_neg _ (by rw [hfx, hx]; exact Bool.false_ne_true)]
        exact ih hf
      · rw [List.find?_cons_of_pos _ (by rw [hfx, hb]), hfx]

/-! ## Claim theorems -/

/-- Inversion helper: a successful `completeQuest` pins the lookups that
guarded it and determines the resulting state componentwise. -/
theorem completeQuest_ok_elim
    (s : DB) (userId questId : Nat) (now : Int) (r : UserQuest) (s1 : DB)
    (h : completeQuest s userId questId now = (Except.ok r, s1)) :
    ∃ user quest uq,
      findUserAlive s userId = some user ∧
      findByIdBasic s questId = some quest ∧
      findUserQuest s userId questId = some uq ∧
      (uq.status == "completed") = false ∧
      r = { uq with status := "completed", completedAt := some now } ∧
      s1.users = s.users.map (fun u =>
        if u.id == userId then { u with experience := user.experience + quest.experienceReward } else u) ∧
      s1.userQuests = s.userQuests.map (fun x =>
        if x.id == uq.id then { uq with status := "completed", completedAt := some now } else x) ∧
      s1.quests = s.quests := by
  unfold completeQuest at h
  cases hu : findUserAlive s userId with
  | none => rw [hu] at h; simp at h
  | some user =>
    rw [hu] at h
    cases hq : findByIdBasic s questId with
    | none => rw [hq] at h; simp at h
    | some quest =>
      rw [hq] at h
      cases huq : findUserQuest s userId questId with
      | none => rw [huq] at h; simp at h
      | some uq =>
        rw [huq] at h
        dsimp only at h
        by_cases hst : (uq.status == "completed") = true
        · rw [if_pos hst] at h; simp at h
        · rw [if_neg hst] at h
          simp only [Prod.mk.injEq, Except.ok.injEq] at h
          obtain ⟨hr, hs⟩ := h
          refine ⟨user, quest, uq, rfl, rfl, rfl, by simpa using hst, hr.symm, ?_, ?_, ?_⟩ <;>
            · rw [← hs]; dsimp only; split <;> rfl

/-- C1: once a (user, quest) pair's participation row is `completed` by a
successful `completeQuest`, a further `completeQuest` call fails with
`Conflict` and returns the state of the first completion unchanged — the
participation row, the user's experience and the grant rows all keep
their post-first-call values. -/
theorem completeQuest_second_call_conflict
    (s : DB) (userId questId : Nat) (now now2 : Int) (r : UserQuest) (s1 : DB)
    (h : completeQuest s userId questId now = (Except.ok r, s1)) :
    completeQuest s1 userId questId now2 =
      (Except.error (Err.conflict "Квест уже выполнен"), s1) := by
  obtain ⟨user, quest, uq, hu, hq, huq, hst, hr, husers, huqs, hquests⟩ :=
    completeQuest_ok_elim s userId questId now r s1 h
  have hu0 : s.users.find? (fun u => u.id == userId && u.recordStatus != "DELETED") = some user := hu
  have hpu : (user.id == userId && user.recordStatus != "DELETED") = true := by
    simpa using List.find?_some hu0
  have h1 : findUserAlive s1 userId =
      some { user with experience := user.experience + quest.experienceReward } := by
    unfold findUserAlive at hu ⊢
    rw [husers, find?_map_congr _ _ _ ?hp, hu, Option.map_some']
    case hp =>
      intro a
      by_cases hid : (a.id == userId) = true
      · rw [if_pos hid]
      · rw [if_neg hid]
    · rw [if_pos (Bool.and_elim_left hpu)]
  have h2 : findByIdBasic s1 questId = some quest := by
    unfold findByIdBasic at hq ⊢
    rw [hquests]; exact hq
  have huq0 : s.userQuests.find? (fun x => x.userId == userId && x.questId == questId) = some uq := huq
  have hpq : (uq.userId == userId && uq.questId == questId) = true := by
    simpa using List.find?_some huq0
  have h3 : findUserQuest s1 userId questId =
      some { uq with status := "completed", completedAt := some now } := by
    unfold findUserQuest at huq ⊢
    rw [huqs]
    refine find?_map_replace _ _ _ _ ?_ ?_ ⟨uq, huq, ?_⟩
    · exact hpq
    · intro a
      by_cases hid : (a.id == uq.id) = true
      · right; rw [if_pos hid]
      · left; rw [if_neg hid]
    · rw [if_pos (by simp)]
  unfold completeQuest
  rw [h1, h2, h3]
  dsimp only
  rw [if_pos (by rfl)]

/-- C1 witness: completing the fixture participation at time 5 succeeds;
the immediate retry at time 6 yields `Conflict` with the state of the
first completion intact. -/
theorem completeQuest_second_call_conflict_witness :
    completeQuest wDB 1 1 5 = (Except.ok wCompleted, wDB1) ∧
    completeQuest wDB1 1 1 6 = (Except.error (Err.conflict "Квест уже выполнен"), wDB1) :=
  ⟨by decide, completeQuest_second_call_conflict wDB 1 1 5 6 wCompleted wDB1 (by decide)⟩

/-- C5: at most one participation row per (user, quest) pair — `joinQuest`
preserves pairwise distinctness of the (user, quest) keys; when a row for
the pair already exists the call mutates nothing, and (when the user and
an active quest exist) fails with `Conflict`; a successful call happens
only when no row existed and appends exactly one `in_progress` row. -/
theorem joinQuest_exclusivity
    (s : DB) (userId questId : Nat) (now : Int)
    (huniq : s.userQuests.Pairwise (fun a b => ¬(a.userId = b.userId ∧ a.questId = b.questId))) :
    ((joinQuest s userId questId now).2).userQuests.Pairwise
        (fun a b => ¬(a.userId = b.userId ∧ a.questId = b.questId)) ∧
    (∀ uq, findUserQuest s userId questId = some uq →
      ((joinQuest s userId questId now).2 = s ∧
       (∀ user quest, findUserAlive s userId = some user →
         findByIdBasic s questId = some quest → quest.status = "active" →
         (joinQuest s userId questId now).1 =
           Except.error (Err.conflict "Пользователь уже присоединился к этому квесту")))) ∧
    (∀ r s', joinQuest s userId questId now = (Except.ok r, s') →
      findUserQuest s userId questId = none ∧ r.status = "in_progress" ∧
      s'.userQuests = s.userQuests ++ [r]) := by
  unfold joinQuest
  cases hu : findUserAlive s userId with
  | none =>
    dsimp only
    refine ⟨huniq, ?_, ?_⟩
    · intro uq _
      exact ⟨rfl, fun user quest hu' _ _ => Option.noConfusion hu'⟩
    · intro r s' h; simp at h
  | some user =>
    dsimp only
    cases hq : findByIdBasic s questId with
    | none =>
      dsimp only
      refine ⟨huniq, ?_, ?_⟩
      · intro uq _
        exact ⟨rfl, fun user' quest hu' hq' _ => Option.noConfusion hq'⟩
      · intro r s' h; simp at h
    | some quest =>
      dsimp only
      by_cases hact : (quest.status != "active") = true
      · rw [if_pos hact]
        refine ⟨huniq, ?_, ?_⟩
        · intro uq _
          refine ⟨rfl, fun user' quest' hu' hq' hst => ?_⟩
          obtain rfl : quest = quest' := by injection hq'
          rw [hst] at hact
          simp at hact
        · intro r s' h; simp at h
      · rw [if_neg hact]
        cases huq : findUserQuest s userId questId with
        | some uq =>
          dsimp only
          refine ⟨huniq, ?_, ?_⟩
          · intro _ _
            exact ⟨rfl, fun _ _ _ _ _ => rfl⟩
          · intro r s' h; simp at h
        | none =>
          dsimp only
          refine ⟨?_, ?_, ?_⟩
          · rw [List.pairwise_append]
            refine ⟨huniq, List.pairwise_singleton _ _, ?_⟩
            intro a ha b hb
            obtain rfl :
                b = { id := s.nextUserQuestId, userId := userId, questId := questId,
                      status := "in_progress", startedAt := some now, completedAt := none } := by
              simpa using hb
            intro hab
            have := List.find?_eq_none.mp huq a ha
            exact this (by simp only [Bool.and_eq_true, beq_iff_eq]; exact ⟨hab.1, hab.2⟩)
          · intro uq huq'
            exact Option.noConfusion huq'
          · intro r s' h
            simp only [Prod.mk.injEq, Except.ok.injEq] at h
            obtain ⟨hr, hs⟩ := h
            subst hr
            exact ⟨rfl, rfl, by rw [← hs]⟩

/-- C5 witness: in a state satisfying the uniqueness invariant with an
existing row for the pair (1, 1), `joinQuest` leaves the state unchanged;
on the fresh pair (1, 2) of the two-quest fixture it inserts exactly one
`in_progress` row. -/
theorem joinQuest_exclusivity_witness :
    wDB.userQuests.Pairwise (fun a b => ¬(a.userId = b.userId ∧ a.questId = b.questId)) ∧
    ((joinQuest wDB 1 1 3).2).userQuests.Pairwise
        (fun a b => ¬(a.userId = b.userId ∧ a.questId = b.questId)) := by
  have h := joinQuest_exclusivity wDB 1 1 3 (by decide)
  exact ⟨by decide, h.1⟩



/-- C6: `updateRequirementCurrentValue` mutates a quest's steps only when
the quest is `active`: for a quest whose status is `archived` or
`completed` the call fails with `BadRequest` whose message names the
offending status, and the state — in particular the quest's steps — is
unchanged. -/
theorem updateRequirement_inactive_rejected
    (s : DB) (questId : Nat) (stepIndex : Int) (v now : Int) (quest : Quest)
    (hq : findByIdBasic s questId = some quest)
    (hst : quest.status = "archived" ∨ quest.status = "completed") :
    updateRequirementCurrentValue s questId stepIndex v now =
      (Except.error (Err.badRequest
        ("Квест со статусом '" ++ quest.status ++ "' не может быть изменен")), s) := by
  have hne : (quest.status != "active") = true := by
    rcases hst with h | h <;> rw [h] <;> rfl
  unfold updateRequirementCurrentValue
  rw [hq]
  simp only [hne, if_true]

/-- C6 witness: the archived fixture quest rejects a requirement update
with the status-naming message and an unchanged state. -/
theorem updateRequirement_inactive_rejected_witness :
    findByIdBasic wArchivedDB 1 = some { wQuest with status := "archived" } ∧
    updateRequirementCurrentValue wArchivedDB 1 0 5 7 =
      (Except.error (Err.badRequest
        "Квест со статусом 'archived' не может быть изменен"), wArchivedDB) := by
  refine ⟨by decide, ?_⟩
  exact updateRequirement_inactive_rejected wArchivedDB 1 0 5 7
    { wQuest with status := "archived" } (by decide) (Or.inl rfl)

/-- C10: `completeQuest` imposes no precondition on the quest's own status
or on step-requirement progress: whenever the user and the quest are
alive and a participation row exists with status other than `completed`,
the call succeeds — the participation row is marked `completed` with
`completedAt` stamped, the user's experience is credited by exactly
`quest.experienceReward`, and the quest rows are untouched.  No
hypothesis mentions `quest.status` or the step requirements; the witness
instantiates an archived quest whose requirement is strictly below its
target. -/
theorem completeQuest_no_status_precondition
    (s : DB) (userId questId : Nat) (now : Int) (user : User) (quest : Quest) (uq : UserQuest)
    (hu : findUserAlive s userId = some user)
    (hq : findByIdBasic s questId = some quest)
    (huq : findUserQuest s userId questId = some uq)
    (hnc : uq.status ≠ "completed") :
    (completeQuest s userId questId now).1 =
      Except.ok { uq with status := "completed", completedAt := some now } ∧
    ((completeQuest s userId questId now).2).userQuests =
      s.userQuests.map (fun r =>
        if r.id == uq.id then { uq with status := "completed", completedAt := some now } else r) ∧
    ((completeQuest s userId questId now).2).users =
      s.users.map (fun u =>
        if u.id == userId then { u with experience := user.experience + quest.experienceReward } else u) ∧
    ((completeQuest s userId questId now).2).quests = s.quests := by
  have hnc' : (uq.status == "completed") = false := by
    simpa using hnc
  unfold completeQuest
  rw [hu, hq, huq]
  dsimp only
  rw [if_neg (by rw [hnc']; exact Bool.false_ne_true)]
  refine ⟨rfl, ?_, ?_, ?_⟩ <;> · dsimp only; split <;> rfl

/-- C10 witness: on an archived copy of the fixture quest whose step
requirement is 3 of 10, completion still succeeds, stamps the row, and
credits 50 experience. -/
theorem completeQuest_no_status_precondition_witness :
    ({ wQuest with status := "archived" } : Quest).status = "archived" ∧
    wStep.requirement = some { currentValue := some 3, targetValue := some 10 } ∧
    ((completeQuest wArchivedDB 1 1 5).1 = Except.ok wCompleted ∧
      ((completeQuest wArchivedDB 1 1 5).2).userQuests =
        wArchivedDB.userQuests.map (fun r => if r.id == 1 then wCompleted else r) ∧
      ((completeQuest wArchivedDB 1 1 5).2).users =
        wArchivedDB.users.map (fun u =>
          if u.id == 1 then { u with experience := 0 + 50 } else u) ∧
      ((completeQuest wArchivedDB 1 1 5).2).quests = wArchivedDB.quests) := by
  refine ⟨rfl, rfl, ?_⟩
  exact completeQuest_no_status_precondition wArchivedDB 1 1 5 wUser
    { wQuest with status := "archived" } wUserQuest
    (by decide) (by decide) (by decide) (by decide)

/-- Helper: with all guards satisfied, `updateRequirementCurrentValue`
reaches the write with the copy-on-write steps array and the
`RequirementUpdated` emission, ending in the `findOne` re-fetch. -/
theorem updateRequirement_write_spec
    (s : DB) (questId : Nat) (i : Nat) (v now : Int)
    (quest : Quest) (steps : List Step) (step : Step) (req : Requirement) (tgt : Int)
    (hq : findByIdBasic s questId = some quest)
    (hactive : quest.status = "active")
    (hsteps : quest.steps = some steps)
    (hstep : steps.get? i = some step)
    (hreq : step.requirement = some req)
    (htgt : req.targetValue = some tgt)
    (h0 : 0 ≤ v) (h1 : v ≤ tgt) :
    updateRequirementCurrentValue s questId (i : Int) v now =
      finishWithFindOne
        { s with
          quests := s.quests.map (fun r =>
            if r.id == questId && r.recordStatus != "DELETED"
            then { quest with
                   steps := some (steps.set i { step with
                     requirement := some { req with currentValue := some v } }),
                   updatedAt := now }
            else r),
          events := s.events ++ [Event.requirementUpdated questId
            (some (steps.set i { step with
              requirement := some { req with currentValue := some v } }))] }
        questId := by
  obtain ⟨hlt, -⟩ := List.get?_eq_some.mp hstep
  unfold updateRequirementCurrentValue
  rw [hq]
  dsimp only
  rw [if_neg (by rw [hactive]; simp), hsteps]
  dsimp only
  rw [if_neg (by simp only [Bool.or_eq_true, decide_eq_true_eq, not_or]; omega)]
  rw [show ((i : Int)).toNat = i from Int.toNat_natCast i, hstep]
  dsimp only
  rw [hreq]
  dsimp only
  rw [htgt]
  dsimp only
  rw [if_neg (by omega), if_neg (by omega)]
  rfl

/-- Helper: the trailing re-fetch succeeds and returns the found row when
the quest row and its owner are alive in the written state. -/
theorem finishWithFindOne_eq_ok (s' : DB) (id : Nat) (q' : Quest) (owner : User)
    (h1 : findByIdBasic s' id = some q')
    (h2 : findUserAlive s' q'.ownerId = some owner) :
    finishWithFindOne s' id = (Except.ok q', s') := by
  unfold finishWithFindOne findOne findByIdWithOwner
  rw [h1]
  dsimp only
  rw [h2]

/-- Helper: the state component of the trailing re-fetch. -/
theorem finishWithFindOne_snd (s : DB) (id : Nat) :
    (finishWithFindOne s id).2 = s := by
  unfold finishWithFindOne
  split <;> rfl

/-- Helper: the trailing re-fetch never raises `BadRequest`. -/
theorem finishWithFindOne_not_badRequest (s : DB) (id : Nat) (m : String) :
    (finishWithFindOne s id).1 ≠ Except.error (Err.badRequest m) := by
  unfold finishWithFindOne findOne
  cases h : findByIdWithOwner s id <;> simp

/-- Helper: full success equation of `updateRequirementCurrentValue` when
additionally the quest's owner is alive (so the re-fetch succeeds). -/
theorem updateRequirement_success_eq
    (s : DB) (questId : Nat) (i : Nat) (v now : Int)
    (quest : Quest) (steps : List Step) (step : Step) (req : Requirement) (tgt : Int) (owner : User)
    (hq : findByIdBasic s questId = some quest)
    (hactive : quest.status = "active")
    (hsteps : quest.steps = some steps)
    (hstep : steps.get? i = some step)
    (hreq : step.requirement = some req)
    (htgt : req.targetValue = some tgt)
    (hown : findUserAlive s quest.ownerId = some owner)
    (h0 : 0 ≤ v) (h1 : v ≤ tgt) :
    updateRequirementCurrentValue s questId (i : Int) v now =
      (Except.ok { quest with
          steps := some (steps.set i { step with
            requirement := some { req with currentValue := some v } }),
          updatedAt := now },
       { s with
         quests := s.quests.map (fun r =>
           if r.id == questId && r.recordStatus != "DELETED"
           then { quest with
                  steps := some (steps.set i { step with
                    requirement := some { req with currentValue := some v } }),
                  updatedAt := now }
           else r),
         events := s.events ++ [Event.requirementUpdated questId
           (some (steps.set i { step with
             requirement := some { req with currentValue := some v } }))] }) := by
  rw [updateRequirement_write_spec s questId i v now quest steps step req tgt
    hq hactive hsteps hstep hreq htgt h0 h1]
  have hpq : (quest.id == questId && quest.recordStatus != "DELETED") = true := by
    have hq0 : s.quests.find? (fun r => r.id == questId && r.recordStatus != "DELETED") = some quest := hq
    simpa using List.find?_some hq0
  have hfind : findByIdBasic
      { s with
        quests := s.quests.map (fun r =>
          if r.id == questId && r.recordStatus != "DELETED"
          then { quest with
                 steps := some (steps.set i { step with
                   requirement := some { req with currentValue := some v } }),
                 updatedAt := now }
          else r),
        events := s.events ++ [Event.requirementUpdated questId
          (some (steps.set i { step with
            requirement := some { req with currentValue := some v } }))] } questId =
      some { quest with
        steps := some (steps.set i { step with
          requirement := some { req with currentValue := some v } }),
        updatedAt := now } := by
    unfold findByIdBasic at hq ⊢
    dsimp only
    refine find?_map_replace _ _ _ _ ?_ ?_ ⟨quest, hq, ?_⟩
    · exact hpq
    · intro a
      by_cases hid : (a.id == questId && a.recordStatus != "DELETED") = true
      · right; rw [if_pos hid]
      · left; rw [if_neg hid]
    · rw [if_pos hpq]
  exact finishWithFindOne_eq_ok _ questId _ owner hfind hown

/-- C7: a successful `updateRequirementCurrentValue` replaces only the
addressed step's requirement `currentValue`: the steps array is the old
one with index `i` replaced by the old step whose requirement carries the
new `currentValue` (title, description, status, progress, `targetValue`
of the addressed step and every other step are carried over unchanged by
the copy-on-write), no other table changes, and a `RequirementUpdated`
event carrying the full updated steps sequence is appended. -/
theorem updateRequirement_success_frame
    (s : DB) (questId : Nat) (i : Nat) (v now : Int)
    (quest : Quest) (steps : List Step) (step : Step) (req : Requirement) (tgt : Int) (owner : User)
    (hq : findByIdBasic s questId = some quest)
    (hactive : quest.status = "active")
    (hsteps : quest.steps = some steps)
    (hstep : steps.get? i = some step)
    (hreq : step.requirement = some req)
    (htgt : req.targetValue = some tgt)
    (hown : findUserAlive s quest.ownerId = some owner)
    (h0 : 0 ≤ v) (h1 : v ≤ tgt) :
    updateRequirementCurrentValue s questId (i : Int) v now =
      (Except.ok { quest with
          steps := some (steps.set i { step with
            requirement := some { req with currentValue := some v } }),
          updatedAt := now },
       { s with
         quests := s.quests.map (fun r =>
           if r.id == questId && r.recordStatus != "DELETED"
           then { quest with
                  steps := some (steps.set i { step with
                    requirement := some { req with currentValue := some v } }),
                  updatedAt := now }
           else r),
         events := s.events ++ [Event.requirementUpdated questId
           (some (steps.set i { step with
             requirement := some { req with currentValue := some v } }))] }) :=
  updateRequirement_success_eq s questId i v now quest steps step req tgt owner
    hq hactive hsteps hstep hreq htgt hown h0 h1

/-- C7 witness: updating the fixture step to 5 of 10 replaces exactly that
requirement value, leaves the step's other fields and all other state
alone, and emits `RequirementUpdated` with the updated steps. -/
theorem updateRequirement_success_frame_witness :
    updateRequirementCurrentValue wDB 1 (0 : Int) 5 7 =
      (Except.ok { wQuest with
          steps := some ([wStep].set 0 { wStep with
            requirement := some { currentValue := some 5, targetValue := some 10 } }),
          updatedAt := 7 },
       { wDB with
         quests := wDB.quests.map (fun r =>
           if r.id == 1 && r.recordStatus != "DELETED"
           then { wQuest with
                  steps := some ([wStep].set 0 { wStep with
                    requirement := some { currentValue := some 5, targetValue := some 10 } }),
                  updatedAt := 7 }
           else r),
         events := wDB.events ++ [Event.requirementUpdated 1
           (some ([wStep].set 0 { wStep with
             requirement := some { currentValue := some 5, targetValue := some 10 } }))] }) :=
  updateRequirement_success_frame wDB 1 0 5 7 wQuest [wStep] wStep
    { currentValue := some 3, targetValue := some 10 } 10 wUser
    (by decide) (by decide) (by decide) (by decide) (by decide) (by decide) (by decide)
    (by decide) (by decide)

/-- C2 counterexample: an in-range update (5 with target 10, so
`0 ≤ 5 ≤ 10`) on an *active* quest whose addressed step carries a
requirement with a defined `targetValue` does **not** succeed when the
quest's owner is soft-deleted: the call ends in `NotFound`, because the
trailing `findOne` re-fetch inner-joins a non-deleted owner — refuting
"succeeds if and only if `0 ≤ newCurrentValue ≤ targetValue`".  (The new
value is nevertheless persisted before the failing re-fetch.) -/
theorem updateRequirement_range_counterexample :
    findByIdBasic wOwnerGoneDB 1 = some wQuest ∧
    wQuest.status = "active" ∧
    wQuest.steps = some [wStep] ∧
    wStep.requirement = some { currentValue := some 3, targetValue := some 10 } ∧
    (0 : Int) ≤ 5 ∧ (5 : Int) ≤ 10 ∧
    (updateRequirementCurrentValue wOwnerGoneDB 1 0 5 7).1 =
      Except.error (Err.notFound "Квест с ID 1 не найден") ∧
    ((updateRequirementCurrentValue wOwnerGoneDB 1 0 5 7).2).quests ≠ wOwnerGoneDB.quests := by
  decide

/-- C2 amended: for an active quest whose step at the given index carries
a requirement with a defined `targetValue`, **and whose owner is not
soft-deleted** (so the trailing re-fetch cannot fail), the call succeeds
iff `0 ≤ newCurrentValue ≤ targetValue`; any out-of-range value is
rejected with `BadRequest` and leaves the state unchanged. -/
theorem updateRequirement_range_amended
    (s : DB) (questId : Nat) (i : Nat) (v now : Int)
    (quest : Quest) (steps : List Step) (step : Step) (req : Requirement) (tgt : Int) (owner : User)
    (hq : findByIdBasic s questId = some quest)
    (hactive : quest.status = "active")
    (hsteps : quest.steps = some steps)
    (hstep : steps.get? i = some step)
    (hreq : step.requirement = some req)
    (htgt : req.targetValue = some tgt)
    (hown : findUserAlive s quest.ownerId = some owner) :
    ((0 ≤ v ∧ v ≤ tgt) →
      (updateRequirementCurrentValue s questId (i : Int) v now).1 =
        Except.ok { quest with
          steps := some (steps.set i { step with
            requirement := some { req with currentValue := some v } }),
          updatedAt := now }) ∧
    (¬(0 ≤ v ∧ v ≤ tgt) →
      ∃ m, updateRequirementCurrentValue s questId (i : Int) v now =
        (Except.error (Err.badRequest m), s)) := by
  constructor
  · intro hrange
    rw [updateRequirement_success_eq s questId i v now quest steps step req tgt owner
      hq hactive hsteps hstep hreq htgt hown hrange.1 hrange.2]
  · intro hrange
    have hv : v < 0 ∨ (0 ≤ v ∧ tgt < v) := by omega
    obtain ⟨hlt, -⟩ := List.get?_eq_some.mp hstep
    unfold updateRequirementCurrentValue
    rw [hq]
    dsimp only
    rw [if_neg (by rw [hactive]; simp), hsteps]
    dsimp only
    rw [if_neg (by simp only [Bool.or_eq_true, decide_eq_true_eq, not_or]; omega)]
    rw [show ((i : Int)).toNat = i from Int.toNat_natCast i, hstep]
    dsimp only
    rw [hreq]
    dsimp only
    rw [htgt]
    dsimp only
    rcases hv with hv | hv
    · rw [if_pos hv]
      exact ⟨_, rfl⟩
    · rw [if_neg (by omega), if_pos (by omega)]
      exact ⟨_, rfl⟩


/-- C2 amended witness: on the live-owner fixture, the boundary value 10
(equal to the target) is accepted and 11 is rejected with `BadRequest`
leaving the state unchanged. -/
theorem updateRequirement_range_amended_witness :
    (updateRequirementCurrentValue wDB 1 (0 : Int) 10 7).1 =
      Except.ok { wQuest with
        steps := some ([wStep].set 0 { wStep with
          requirement := some { currentValue := some 10, targetValue := some 10 } }),
        updatedAt := 7 } ∧
    (∃ m, updateRequirementCurrentValue wDB 1 (0 : Int) 11 7 =
      (Except.error (Err.badRequest m), wDB)) := by
  constructor
  · exact (updateRequirement_range_amended wDB 1 0 10 7 wQuest [wStep] wStep
      { currentValue := some 3, targetValue := some 10 } 10 wUser
      (by decide) (by decide) (by decide) (by decide) (by decide) (by decide)
      (by decide)).1 (by norm_num)
  · exact (updateRequirement_range_amended wDB 1 0 11 7 wQuest [wStep] wStep
      { currentValue := some 3, targetValue := some 10 } 10 wUser
      (by decide) (by decide) (by decide) (by decide) (by decide) (by decide)
      (by decide)).2 (by norm_num)

/-- C3 (failing input): the fixture quest has **no** bound achievement
(`achievementId = null`), yet completing it still performs a grant
insert: the `userAchievements` existence check compares against the
`NULL` `achievementId` (never a match under SQL semantics) and the
unguarded insert then stores a row with a `NULL` `achievementId` — the
claim's "completing a quest with no bound achievement performs no grant
insert" is violated by the code. -/
theorem completeQuest_unbound_grant_insert :
    wQuest.achievementId = none ∧
    (completeQuest wDB 1 1 5).1 = Except.ok wCompleted ∧
    ((completeQuest wDB 1 1 5).2).userAchievements =
      [{ id := 1, userId := 1, achievementId := none }] := by
  decide

/-- Helper: when the quest exists and all inline validations pass and no
category re-association is requested, `QuestService.update` performs
exactly the quest-row write (plus the conditional `RequirementUpdated`
emission) and ends in the re-fetch. -/
theorem updateQuest_write_spec
    (s : DB) (id : Nat) (dto : UpdateQuestDto) (now : Int) (q : Quest)
    (hq : findByIdBasic s id = some q)
    (h1 : updateAchIdCheck s dto = none)
    (h2 : updateCityCheck s dto = none)
    (h3 : updateOrgTypeCheck s dto = none)
    (h4 : updateGalleryCheck dto = none)
    (h5 : dto.categoryIds = none) :
    updateQuest s id dto now =
      finishWithFindOne
        (if (match dto.steps with
             | some ns => requirementsChangedCalc q.steps ns
             | none => false) = true
         then { s with
                quests := s.quests.map (fun r =>
                  if r.id == id && r.recordStatus != "DELETED"
                  then buildQuestUpdate q dto now else r),
                events := s.events ++
                  [Event.requirementUpdated id (buildQuestUpdate q dto now).steps] }
         else { s with
                quests := s.quests.map (fun r =>
                  if r.id == id && r.recordStatus != "DELETED"
                  then buildQuestUpdate q dto now else r) })
        id := by
  unfold updateQuest
  rw [hq]
  dsimp only
  rw [h1]
  dsimp only
  rw [h2]
  dsimp only
  rw [h3]
  dsimp only
  rw [h4]
  dsimp only
  rw [h5]

/-- C9: partial-update semantics of `QuestService.update`: an empty patch
rewrites the quest row with only `updatedAt` changed (all other tables
and the event log untouched); a `gallery: []` patch clears the gallery
and raises no `BadRequest`; and in general, for any patch passing the
inline validations, the written row is the field-by-field merge in which
every absent (`undefined`) field keeps its stored value. -/
theorem updateQuest_partial_semantics
    (s : DB) (id : Nat) (now : Int) (q : Quest)
    (hq : findByIdBasic s id = some q) :
    ((updateQuest s id {} now).2 =
      { s with quests := s.quests.map (fun r =>
          if r.id == id && r.recordStatus != "DELETED" then { q with updatedAt := now } else r) }) ∧
    ((updateQuest s id { gallery := some (some []) } now).2 =
      { s with quests := s.quests.map (fun r =>
          if r.id == id && r.recordStatus != "DELETED"
          then { q with gallery := some [], updatedAt := now } else r) }) ∧
    (∀ m, (updateQuest s id { gallery := some (some []) } now).1 ≠
        Except.error (Err.badRequest m)) ∧
    (∀ dto : UpdateQuestDto,
      updateAchIdCheck s dto = none → updateCityCheck s dto = none →
      updateOrgTypeCheck s dto = none → updateGalleryCheck dto = none →
      dto.categoryIds = none →
      (((updateQuest s id dto now).2).quests = s.quests.map (fun r =>
          if r.id == id && r.recordStatus != "DELETED" then buildQuestUpdate q dto now else r) ∧
       (dto.title = none → (buildQuestUpdate q dto now).title = q.title) ∧
       (dto.description = none → (buildQuestUpdate q dto now).description = q.description) ∧
       (dto.status = none → (buildQuestUpdate q dto now).status = q.status) ∧
       (dto.experienceReward = none →
         (buildQuestUpdate q dto now).experienceReward = q.experienceReward) ∧
       (dto.achievementId = none → (buildQuestUpdate q dto now).achievementId = q.achievementId) ∧
       (dto.cityId = none → (buildQuestUpdate q dto now).cityId = q.cityId) ∧
       (dto.organizationTypeId = none →
         (buildQuestUpdate q dto now).organizationTypeId = q.organizationTypeId) ∧
       (dto.latitude = none → (buildQuestUpdate q dto now).latitude = q.latitude) ∧
       (dto.longitude = none → (buildQuestUpdate q dto now).longitude = q.longitude) ∧
       (dto.address = none → (buildQuestUpdate q dto now).address = q.address) ∧
       (dto.contacts = none → (buildQuestUpdate q dto now).contacts = q.contacts) ∧
       (dto.coverImage = none → (buildQuestUpdate q dto now).coverImage = q.coverImage) ∧
       (dto.gallery = none → (buildQuestUpdate q dto now).gallery = q.gallery) ∧
       (dto.steps = none → (buildQuestUpdate q dto now).steps = q.steps))) := by
  refine ⟨?_, ?_, ?_, ?_⟩
  · rw [updateQuest_write_spec s id {} now q hq rfl rfl rfl rfl rfl, if_neg (by exact Bool.false_ne_true)]
    exact finishWithFindOne_snd _ _
  · rw [updateQuest_write_spec s id { gallery := some (some []) } now q hq
      rfl rfl rfl (by decide) rfl, if_neg (by exact Bool.false_ne_true)]
    exact finishWithFindOne_snd _ _
  · intro m
    rw [updateQuest_write_spec s id { gallery := some (some []) } now q hq
      rfl rfl rfl (by decide) rfl, if_neg (by exact Bool.false_ne_true)]
    exact finishWithFindOne_not_badRequest _ _ m
  · intro dto h1 h2 h3 h4 h5
    refine ⟨?_, ?_, ?_, ?_, ?_, ?_, ?_, ?_, ?_, ?_, ?_, ?_, ?_, ?_, ?_⟩
    · rw [updateQuest_write_spec s id dto now q hq h1 h2 h3 h4 h5]
      rw [finishWithFindOne_snd]
      split <;> rfl
    all_goals intro h
    all_goals simp only [buildQuestUpdate, h, Option.getD_none]

/-- C9 witness: on the fixture, an empty patch touches only `updatedAt`,
and a `gallery: []` patch clears the gallery. -/
theorem updateQuest_partial_semantics_witness :
    (updateQuest wDB 1 {} 9).2 =
      { wDB with quests := wDB.quests.map (fun r =>
          if r.id == 1 && r.recordStatus != "DELETED" then { wQuest with updatedAt := 9 } else r) } ∧
    (updateQuest wDB 1 { gallery := some (some []) } 9).2 =
      { wDB with quests := wDB.quests.map (fun r =>
          if r.id == 1 && r.recordStatus != "DELETED"
          then { wQuest with gallery := some [], updatedAt := 9 } else r) } :=
  ⟨(updateQuest_partial_semantics wDB 1 9 wQuest (by decide)).1,
   (updateQuest_partial_semantics wDB 1 9 wQuest (by decide)).2.1⟩

/-- Helper: `joinQuest` either succeeds or leaves the state untouched. -/
theorem joinQuest_state_cases (s : DB) (u q : Nat) (now : Int) :
    (∃ r, (joinQuest s u q now).1 = Except.ok r) ∨ (joinQuest s u q now).2 = s := by
  unfold joinQuest
  dsimp only
  repeat' split
  all_goals first
  | exact Or.inl ⟨_, rfl⟩
  | exact Or.inr rfl

/-- Helper: `leaveQuest` either succeeds or leaves the state untouched. -/
theorem leaveQuest_state_cases (s : DB) (u q : Nat) :
    (∃ r, (leaveQuest s u q).1 = Except.ok r) ∨ (leaveQuest s u q).2 = s := by
  unfold leaveQuest
  dsimp only
  repeat' split
  all_goals first
  | exact Or.inl ⟨_, rfl⟩
  | exact Or.inr rfl

/-- Helper: `completeQuest` either succeeds or leaves the state untouched. -/
theorem completeQuest_state_cases (s : DB) (u q : Nat) (now : Int) :
    (∃ r, (completeQuest s u q now).1 = Except.ok r) ∨ (completeQuest s u q now).2 = s := by
  unfold completeQuest
  dsimp only
  repeat' split
  all_goals first
  | exact Or.inl ⟨_, rfl⟩
  | exact Or.inr rfl

/-- Helper: `removeQuest` either succeeds or leaves the state untouched. -/
theorem removeQuest_state_cases (s : DB) (id : Nat) (now : Int) :
    (∃ r, (removeQuest s id now).1 = Except.ok r) ∨ (removeQuest s id now).2 = s := by
  unfold removeQuest
  dsimp only
  repeat' split
  all_goals first
  | exact Or.inl ⟨_, rfl⟩
  | exact Or.inr rfl

set_option maxHeartbeats 1000000 in
/-- Helper: `createQuest` either succeeds, or touches nothing except
(possibly) the `achievements` table; when no inline achievement payload
is supplied, a failing call touches nothing at all. -/
theorem createQuest_state_cases (s : DB) (dto : CreateQuestDto) (uid : Nat) (now : Int) :
    ((∃ r, (createQuest s dto uid now).1 = Except.ok r) ∨
      (((createQuest s dto uid now).2).users = s.users ∧
       ((createQuest s dto uid now).2).cities = s.cities ∧
       ((createQuest s dto uid now).2).organizationTypes = s.organizationTypes ∧
       ((createQuest s dto uid now).2).categories = s.categories ∧
       ((createQuest s dto uid now).2).quests = s.quests ∧
       ((createQuest s dto uid now).2).userQuests = s.userQuests ∧
       ((createQuest s dto uid now).2).userAchievements = s.userAchievements ∧
       ((createQuest s dto uid now).2).questCategories = s.questCategories ∧
       ((createQuest s dto uid now).2).events = s.events)) ∧
    (dto.achievement = none →
      ((∃ r, (createQuest s dto uid now).1 = Except.ok r) ∨
        (createQuest s dto uid now).2 = s)) := by
  unfold createQuest
  dsimp only
  constructor
  · repeat' split
    all_goals first
    | exact Or.inl ⟨_, rfl⟩
    | exact Or.inr ⟨rfl, rfl, rfl, rfl, rfl, rfl, rfl, rfl, rfl⟩
  · intro hno
    repeat' split
    all_goals first
    | exact Or.inl ⟨_, rfl⟩
    | exact Or.inr rfl
    | simp_all

/-- Helper: `updateQuest` either succeeds, or touches nothing except
(possibly) the quest rows, the category associations and the event log. -/
theorem updateQuest_state_cases (s : DB) (id : Nat) (dto : UpdateQuestDto) (now : Int) :
    (∃ r, (updateQuest s id dto now).1 = Except.ok r) ∨
      (((updateQuest s id dto now).2).users = s.users ∧
       ((updateQuest s id dto now).2).cities = s.cities ∧
       ((updateQuest s id dto now).2).organizationTypes = s.organizationTypes ∧
       ((updateQuest s id dto now).2).categories = s.categories ∧
       ((updateQuest s id dto now).2).userQuests = s.userQuests ∧
       ((updateQuest s id dto now).2).achievements = s.achievements ∧
       ((updateQuest s id dto now).2).userAchievements = s.userAchievements) := by
  unfold updateQuest finishWithFindOne
  dsimp only
  repeat' split
  all_goals first
  | exact Or.inl ⟨_, rfl⟩
  | exact Or.inr ⟨rfl, rfl, rfl, rfl, rfl, rfl, rfl⟩

/-- Helper: `updateRequirementCurrentValue` either succeeds, or touches
nothing except (possibly) the quest rows and the event log. -/
theorem updateRequirement_state_cases (s : DB) (qid : Nat) (idx v now : Int) :
    (∃ r, (updateRequirementCurrentValue s qid idx v now).1 = Except.ok r) ∨
      (((updateRequirementCurrentValue s qid idx v now).2).users = s.users ∧
       ((updateRequirementCurrentValue s qid idx v now).2).cities = s.cities ∧
       ((updateRequirementCurrentValue s qid idx v now).2).organizationTypes = s.organizationTypes ∧
       ((updateRequirementCurrentValue s qid idx v now).2).categories = s.categories ∧
       ((updateRequirementCurrentValue s qid idx v now).2).userQuests = s.userQuests ∧
       ((updateRequirementCurrentValue s qid idx v now).2).achievements = s.achievements ∧
       ((updateRequirementCurrentValue s qid idx v now).2).userAchievements = s.userAchievements ∧
       ((updateRequirementCurrentValue s qid idx v now).2).questCategories = s.questCategories) := by
  unfold updateRequirementCurrentValue
  dsimp only
  repeat' split
  all_goals first
  | exact Or.inl ⟨_, rfl⟩
  | exact Or.inr ⟨rfl, rfl, rfl, rfl, rfl, rfl, rfl, rfl⟩

/-- Helper: `archiveQuest` either succeeds, or touches nothing except
(possibly) the quest rows. -/
theorem archiveQuest_state_cases (s : DB) (id : Nat) (now : Int) :
    (∃ r, (archiveQuest s id now).1 = Except.ok r) ∨
      (((archiveQuest s id now).2).users = s.users ∧
       ((archiveQuest s id now).2).cities = s.cities ∧
       ((archiveQuest s id now).2).organizationTypes = s.organizationTypes ∧
       ((archiveQuest s id now).2).categories = s.categories ∧
       ((archiveQuest s id now).2).userQuests = s.userQuests ∧
       ((archiveQuest s id now).2).achievements = s.achievements ∧
       ((archiveQuest s id now).2).userAchievements = s.userAchievements ∧
       ((archiveQuest s id now).2).questCategories = s.questCategories ∧
       ((archiveQuest s id now).2).events = s.events) := by
  unfold archiveQuest
  dsimp only
  repeat' split
  all_goals first
  | exact Or.inl ⟨_, rfl⟩
  | exact Or.inr ⟨rfl, rfl, rfl, rfl, rfl, rfl, rfl, rfl, rfl⟩

/-- Helper: `unarchiveQuest` either succeeds, or touches nothing except
(possibly) the quest rows. -/
theorem unarchiveQuest_state_cases (s : DB) (id : Nat) (now : Int) :
    (∃ r, (unarchiveQuest s id now).1 = Except.ok r) ∨
      (((unarchiveQuest s id now).2).users = s.users ∧
       ((unarchiveQuest s id now).2).cities = s.cities ∧
       ((unarchiveQuest s id now).2).organizationTypes = s.organizationTypes ∧
       ((unarchiveQuest s id now).2).categories = s.categories ∧
       ((unarchiveQuest s id now).2).userQuests = s.userQuests ∧
       ((unarchiveQuest s id now).2).achievements = s.achievements ∧
       ((unarchiveQuest s id now).2).userAchievements = s.userAchievements ∧
       ((unarchiveQuest s id now).2).questCategories = s.questCategories ∧
       ((unarchiveQuest s id now).2).events = s.events) := by
  unfold unarchiveQuest
  dsimp only
  repeat' split
  all_goals first
  | exact Or.inl ⟨_, rfl⟩
  | exact Or.inr ⟨rfl, rfl, rfl, rfl, rfl, rfl, rfl, rfl, rfl⟩

/-- Helper: `achievementCreate` either succeeds or leaves the state
untouched. -/
theorem achievementCreate_state_cases (s : DB) (dto : CreateAchievementDto) :
    (∃ r, (achievementCreate s dto).1 = Except.ok r) ∨ (achievementCreate s dto).2 = s := by
  unfold achievementCreate achInsert
  dsimp only
  repeat' split
  all_goals first
  | exact Or.inl ⟨_, rfl⟩
  | exact Or.inr rfl

/-- Helper: `achievementUpdate` either succeeds or leaves the state
untouched. -/
theorem achievementUpdate_state_cases (s : DB) (id : Nat) (dto : UpdateAchievementDto) :
    (∃ r, (achievementUpdate s id dto).1 = Except.ok r) ∨ (achievementUpdate s id dto).2 = s := by
  unfold achievementUpdate achievementServiceUpdate applyAchUpdate
  dsimp only
  repeat' split
  all_goals first
  | exact Or.inl ⟨_, rfl⟩
  | exact Or.inr rfl

/-- C4 counterexample: `createQuest` with an inline achievement payload
and a dangling `cityId` throws the city `NotFound` validation error
**after** the achievement insert: the call errors, yet the achievements
table gained a row — refuting "no partial writes precede a thrown
validation error". -/
theorem createQuest_validation_mutates_counterexample :
    (createQuest wDB wBadCityDto 1 3).1 =
      Except.error (Err.notFound "Город с ID 99 не найден") ∧
    ((createQuest wDB wBadCityDto 1 3).2).achievements =
      [{ id := 1, title := "A", description := none, icon := none,
         rarity := "private", questId := none, recordStatus := "CREATED" }] ∧
    wDB.achievements = [] := by
  decide

/-- C4 amended: a thrown error leaves the state exactly as it was for
`joinQuest`, `leaveQuest`, `completeQuest`, `remove`, achievement
`create` and achievement `update`; for `createQuest` an error can leave
behind only the inline-achievement insert (nothing at all when no
achievement payload is supplied); for `update` an error can leave behind
only the quest-row write, the category-association clearing and the
event emission (the `categoryIds` existence check runs after those, and
the trailing re-fetch can fail after the write); for
`updateRequirementCurrentValue` only the quest-row write and the event
emission; for `archiveQuest`/`unarchiveQuest` only the quest-row write. -/
theorem validation_failures_frame_amended (s : DB) :
    (∀ u q now e, (joinQuest s u q now).1 = Except.error e → (joinQuest s u q now).2 = s) ∧
    (∀ u q e, (leaveQuest s u q).1 = Except.error e → (leaveQuest s u q).2 = s) ∧
    (∀ u q now e, (completeQuest s u q now).1 = Except.error e → (completeQuest s u q now).2 = s) ∧
    (∀ id now e, (removeQuest s id now).1 = Except.error e → (removeQuest s id now).2 = s) ∧
    (∀ dto e, (achievementCreate s dto).1 = Except.error e → (achievementCreate s dto).2 = s) ∧
    (∀ id dto e, (achievementUpdate s id dto).1 = Except.error e →
      (achievementUpdate s id dto).2 = s) ∧
    (∀ dto uid now e, (createQuest s dto uid now).1 = Except.error e →
      ((((createQuest s dto uid now).2).users = s.users ∧
        ((createQuest s dto uid now).2).quests = s.quests ∧
        ((createQuest s dto uid now).2).userQuests = s.userQuests ∧
        ((createQuest s dto uid now).2).userAchievements = s.userAchievements ∧
        ((createQuest s dto uid now).2).questCategories = s.questCategories ∧
        ((createQuest s dto uid now).2).events = s.events) ∧
       (dto.achievement = none → (createQuest s dto uid now).2 = s))) ∧
    (∀ id dto now e, (updateQuest s id dto now).1 = Except.error e →
      (((updateQuest s id dto now).2).users = s.users ∧
       ((updateQuest s id dto now).2).userQuests = s.userQuests ∧
       ((updateQuest s id dto now).2).achievements = s.achievements ∧
       ((updateQuest s id dto now).2).userAchievements = s.userAchievements)) ∧
    (∀ qid idx v now e, (updateRequirementCurrentValue s qid idx v now).1 = Except.error e →
      (((updateRequirementCurrentValue s qid idx v now).2).users = s.users ∧
       ((updateRequirementCurrentValue s qid idx v now).2).userQuests = s.userQuests ∧
       ((updateRequirementCurrentValue s qid idx v now).2).achievements = s.achievements ∧
       ((updateRequirementCurrentValue s qid idx v now).2).userAchievements = s.userAchievements ∧
       ((updateRequirementCurrentValue s qid idx v now).2).questCategories = s.questCategories)) ∧
    (∀ id now e, (archiveQuest s id now).1 = Except.error e →
      (((archiveQuest s id now).2).users = s.users ∧
       ((archiveQuest s id now).2).userQuests = s.userQuests ∧
       ((archiveQuest s id now).2).events = s.events)) ∧
    (∀ id now e, (unarchiveQuest s id now).1 = Except.error e →
      (((unarchiveQuest s id now).2).users = s.users ∧
       ((unarchiveQuest s id now).2).userQuests = s.userQuests ∧
       ((unarchiveQuest s id now).2).events = s.events)) := by
  refine ⟨?_, ?_, ?_, ?_, ?_, ?_, ?_, ?_, ?_, ?_, ?_⟩
  · intro u q now e h
    rcases joinQuest_state_cases s u q now with ⟨r, hr⟩ | hfr
    · rw [hr] at h; cases h
    · exact hfr
  · intro u q e h
    rcases leaveQuest_state_cases s u q with ⟨r, hr⟩ | hfr
    · rw [hr] at h; cases h
    · exact hfr
  · intro u q now e h
    rcases completeQuest_state_cases s u q now with ⟨r, hr⟩ | hfr
    · rw [hr] at h; cases h
    · exact hfr
  · intro id now e h
    rcases removeQuest_state_cases s id now with ⟨r, hr⟩ | hfr
    · rw [hr] at h; cases h
    · exact hfr
  · intro dto e h
    rcases achievementCreate_state_cases s dto with ⟨r, hr⟩ | hfr
    · rw [hr] at h; cases h
    · exact hfr
  · intro id dto e h
    rcases achievementUpdate_state_cases s id dto with ⟨r, hr⟩ | hfr
    · rw [hr] at h; cases h
    · exact hfr
  · intro dto uid now e h
    obtain ⟨hcases, hnone⟩ := createQuest_state_cases s dto uid now
    constructor
    · rcases hcases with ⟨r, hr⟩ | hfr
      · rw [hr] at h; cases h
      · exact ⟨hfr.1, hfr.2.2.2.2.1, hfr.2.2.2.2.2.1, hfr.2.2.2.2.2.2.1,
          hfr.2.2.2.2.2.2.2.1, hfr.2.2.2.2.2.2.2.2⟩
    · intro hno
      rcases hnone hno with ⟨r, hr⟩ | hfr
      · rw [hr] at h; cases h
      · exact hfr
  · intro id dto now e h
    rcases updateQuest_state_cases s id dto now with ⟨r, hr⟩ | hfr
    · rw [hr] at h; cases h
    · exact ⟨hfr.1, hfr.2.2.2.2.1, hfr.2.2.2.2.2.1, hfr.2.2.2.2.2.2⟩
  · intro qid idx v now e h
    rcases updateRequirement_state_cases s qid idx v now with ⟨r, hr⟩ | hfr
    · rw [hr] at h; cases h
    · exact ⟨hfr.1, hfr.2.2.2.2.1, hfr.2.2.2.2.2.1, hfr.2.2.2.2.2.2.1, hfr.2.2.2.2.2.2.2⟩
  · intro id now e h
    rcases archiveQuest_state_cases s id now with ⟨r, hr⟩ | hfr
    · rw [hr] at h; cases h
    · exact ⟨hfr.1, hfr.2.2.2.2.1, hfr.2.2.2.2.2.2.2.2⟩
  · intro id now e h
    rcases unarchiveQuest_state_cases s id now with ⟨r, hr⟩ | hfr
    · rw [hr] at h; cases h
    · exact ⟨hfr.1, hfr.2.2.2.2.1, hfr.2.2.2.2.2.2.2.2⟩

/-- C4 amended witness: joining a non-existent quest errors and leaves the
fixture state untouched, and a failing `createQuest` without an inline
achievement payload also leaves the state untouched. -/
theorem validation_failures_frame_amended_witness :
    (joinQuest wDB 1 99 3).1 = Except.error (Err.notFound "Квест с ID 99 не найден") ∧
    (joinQuest wDB 1 99 3).2 = wDB ∧
    (createQuest wDB { title := "T", cityId := 99 } 1 3).2 = wDB := by
  refine ⟨by decide, ?_, ?_⟩
  · exact (validation_failures_frame_amended wDB).1 1 99 3
      (Err.notFound "Квест с ID 99 не найден") (by decide)
  · exact ((validation_failures_frame_amended wDB).2.2.2.2.2.2.1
      { title := "T", cityId := 99 } 1 3
      (Err.notFound "Город с ID 99 не найден") (by decide)).2 rfl

/-- Helper: the invariant survives replacing the targeted non-deleted
achievement row with a row that itself satisfies both invariant clauses
(quest rows unchanged). -/
theorem rarityQuestInvariant_replace (s : DB) (id : Nat) (a' : Achievement)
    (hinv : rarityQuestInvariant s)
    (h1 : a'.rarity = "private" → ∃ q, a'.questId = some q ∧ (findByIdBasic s q).isSome)
    (h2 : a'.rarity ≠ "private" → a'.questId = none) :
    rarityQuestInvariant { s with
      achievements := s.achievements.map (fun x =>
        if x.id == id && x.recordStatus != "DELETED" then a' else x) } := by
  intro a ha hnd
  dsimp only at ha
  rw [List.mem_map] at ha
  obtain ⟨x, hx, hfx⟩ := ha
  by_cases hc : (x.id == id && x.recordStatus != "DELETED") = true
  · rw [if_pos hc] at hfx
    subst hfx
    exact ⟨fun hp => h1 hp, h2⟩
  · rw [if_neg hc] at hfx
    subst hfx
    exact ⟨fun hp => (hinv x hx hnd).1 hp, (hinv x hx hnd).2⟩

/-- Helper: the invariant survives appending a row satisfying both
invariant clauses (quest rows unchanged). -/
theorem rarityQuestInvariant_append (s : DB) (a' : Achievement) (n : Nat)
    (hinv : rarityQuestInvariant s)
    (h1 : a'.rarity = "private" → ∃ q, a'.questId = some q ∧ (findByIdBasic s q).isSome)
    (h2 : a'.rarity ≠ "private" → a'.questId = none) :
    rarityQuestInvariant { s with
      achievements := s.achievements ++ [a'], nextAchievementId := n } := by
  intro a ha hnd
  dsimp only at ha
  rw [List.mem_append, List.mem_singleton] at ha
  rcases ha with hx | rfl
  · exact ⟨fun hp => (hinv a hx hnd).1 hp, (hinv a hx hnd).2⟩
  · exact ⟨fun hp => h1 hp, h2⟩

/-- Helper: a successful `AchievementService.create` preserves the
rarity/quest-binding invariant. -/
theorem achievementCreate_preserves_inv (s : DB) (dto : CreateAchievementDto)
    (r : Achievement) (s' : DB)
    (hinv : rarityQuestInvariant s)
    (h : achievementCreate s dto = (Except.ok r, s')) :
    rarityQuestInvariant s' := by
  unfold achievementCreate achInsert at h
  cases ht : achFindByTitle s dto.title with
  | some _ => rw [ht] at h; simp at h
  | none =>
    rw [ht] at h
    dsimp only at h
    by_cases hp : (dto.rarity == "private") = true
    · rw [if_pos hp] at h
      cases hq : dto.questId with
      | none => rw [hq] at h; simp at h
      | some q =>
        rw [hq] at h
        dsimp only at h
        by_cases h0 : (q == 0) = true
        · rw [if_pos h0] at h; simp at h
        · rw [if_neg h0] at h
          cases hfq : achFindQuestById s q with
          | none => rw [hfq] at h; simp at h
          | some qq =>
            rw [hfq] at h
            dsimp only at h
            simp only [Prod.mk.injEq, Except.ok.injEq] at h
            obtain ⟨hr, hs⟩ := h
            rw [← hs]
            refine rarityQuestInvariant_append s _ _ hinv ?_ ?_
            · intro _
              refine ⟨q, rfl, ?_⟩
              have hfq2 : findByIdBasic s q = some qq := hfq
              rw [hfq2]
              rfl
            · intro hnp
              exact absurd (by simpa using hp) hnp
    · rw [if_neg hp] at h
      cases hq : dto.questId with
      | some q => rw [hq] at h; simp at h
      | none =>
        rw [hq] at h
        dsimp only at h
        simp only [Prod.mk.injEq, Except.ok.injEq] at h
        obtain ⟨hr, hs⟩ := h
        rw [← hs]
        refine rarityQuestInvariant_append s _ _ hinv ?_ ?_
        · intro hpriv
          exact absurd hpriv (by simpa using hp)
        · intro _
          rfl


/-- Helper: a successful `AchievementService.update` (behind its DTO
gate) preserves the rarity/quest-binding invariant. -/
theorem achievementUpdate_preserves_inv (s : DB) (id : Nat) (dto : UpdateAchievementDto)
    (r : Achievement) (s' : DB)
    (hinv : rarityQuestInvariant s)
    (h : achievementUpdate s id dto = (Except.ok r, s')) :
    rarityQuestInvariant s' := by
  unfold achievementUpdate at h
  by_cases hz : updateAchievementZodOk dto = true
  case neg => rw [if_neg hz] at h; simp at h
  rw [if_pos hz] at h
  unfold achievementServiceUpdate at h
  cases hcur : findAchievementAlive s id with
  | none => rw [hcur] at h; simp at h
  | some cur =>
    rw [hcur] at h
    dsimp only at h
    have hcur0 : s.achievements.find? (fun a => a.id == id && a.recordStatus != "DELETED") = some cur := hcur
    have hmem : cur ∈ s.achievements := List.mem_of_find?_eq_some hcur0
    have hpred : (cur.id == id && cur.recordStatus != "DELETED") = true := by
      simpa using List.find?_some hcur0
    have hnd : cur.recordStatus ≠ "DELETED" := by
      have h2 := Bool.and_elim_right hpred
      simpa using h2
    by_cases hti : (match dto.title with
        | some t => t != "" && (achFindByTitleExcludingId s t id).isSome
        | none => false) = true
    · rw [if_pos hti] at h; simp at h
    · rw [if_neg hti] at h
      by_cases hfr : (dto.rarity.getD cur.rarity == "private") = true
      · rw [if_pos hfr] at h
        cases hq : dto.questId with
        | some qv =>
          cases qv with
          | none => rw [hq] at h; simp at h
          | some q =>
            rw [hq] at h
            dsimp only at h
            by_cases h0 : (q == 0) = true
            · rw [if_pos h0] at h; simp at h
            · rw [if_neg h0] at h
              cases hfq : achFindQuestById s q with
              | none => rw [hfq] at h; simp at h
              | some qq =>
                rw [hfq] at h
                dsimp only at h
                unfold applyAchUpdate at h
                dsimp only at h
                simp only [Prod.mk.injEq, Except.ok.injEq] at h
                obtain ⟨hr, hs⟩ := h
                rw [← hs]
                refine rarityQuestInvariant_replace s id _ hinv ?_ ?_
                · intro _
                  refine ⟨q, by simp [hq], ?_⟩
                  have hfq2 : findByIdBasic s q = some qq := hfq
                  rw [hfq2]; rfl
                · intro hnp
                  exact absurd (by simpa using hfr) hnp
        | none =>
          rw [hq] at h
          dsimp only at h
          by_cases hn : (cur.questId == none) = true
          · rw [if_pos hn] at h; simp at h
          · rw [if_neg hn] at h
            unfold applyAchUpdate at h
            dsimp only at h
            simp only [Prod.mk.injEq, Except.ok.injEq] at h
            obtain ⟨hr, hs⟩ := h
            rw [← hs]
            obtain ⟨qq, hqq⟩ : ∃ qq, cur.questId = some qq := by
              cases hcq : cur.questId with
              | none => rw [hcq] at hn; simp at hn
              | some v => exact ⟨v, rfl⟩
            have hlive : (findByIdBasic s qq).isSome := by
              by_cases hcp : cur.rarity = "private"
              · obtain ⟨q2, hq2, hl2⟩ := (hinv cur hmem hnd).1 hcp
                rw [hqq] at hq2
                obtain rfl : qq = q2 := by injection hq2
                exact hl2
              · have h3 := (hinv cur hmem hnd).2 hcp
                rw [h3] at hqq
                cases hqq
            refine rarityQuestInvariant_replace s id _ hinv ?_ ?_
            · intro _
              exact ⟨qq, by simp [hq, hqq], hlive⟩
            · intro hnp
              exact absurd (by simpa using hfr) hnp
      · rw [if_neg hfr] at h
        by_cases hrr : (match dto.rarity with | some rr => rr != "private" | none => false) = true
        · rw [if_pos hrr] at h
          unfold applyAchUpdate at h
          dsimp only at h
          simp only [Prod.mk.injEq, Except.ok.injEq] at h
          obtain ⟨hr, hs⟩ := h
          rw [← hs]
          refine rarityQuestInvariant_replace s id _ hinv ?_ ?_
          · intro hp
            exact absurd hp (by simpa using hfr)
          · intro _
            rfl
        · rw [if_neg hrr] at h
          by_cases hqx : (match dto.questId with | some (some _) => true | _ => false) = true
          · rw [if_pos hqx] at h; simp at h
          · rw [if_neg hqx] at h
            unfold applyAchUpdate at h
            dsimp only at h
            simp only [Prod.mk.injEq, Except.ok.injEq] at h
            obtain ⟨hr, hs⟩ := h
            rw [← hs]
            refine rarityQuestInvariant_replace s id _ hinv ?_ ?_
            · intro hp
              exact absurd hp (by simpa using hfr)
            · intro _
              cases hdq : dto.questId with
              | none =>
                have hdr : dto.rarity = none := by
                  cases hr2 : dto.rarity with
                  | none => rfl
                  | some rr =>
                    rw [hr2] at hrr
                    have hrp : rr = "private" := by simpa using hrr
                    rw [hr2, hrp] at hfr
                    simp at hfr
                have hcq : cur.questId = none := by
                  refine (hinv cur hmem hnd).2 (fun hcp => hfr ?_)
                  rw [hdr]
                  simp [hcp]
                simp [hdq, hcq]
              | some ov =>
                cases ov with
                | none => simp [hdq]
                | some v => rw [hdq] at hqx; simp at hqx


/-- C8: the Achievement Binder enforces the rarity/quest invariant
symmetrically.  `create` rejects `private` without a `questId`
(`BadRequest`, state unchanged) and any other rarity with a `questId`
(`BadRequest`, state unchanged).  `update` force-nulls the stored
`questId` whenever the patch carries a non-private rarity; an explicitly
supplied `questId` with a non-private effective rarity is rejected — by
the service when the patch omits `rarity`, and by the
`updateAchievementSchema` DTO gate when the patch carries a non-private
`rarity`; when the rarity stays `private` and the patch omits `questId`,
the stored `questId` is used, erroring (`BadRequest`) only when none is
stored.  Finally, both successful `create` and successful `update`
preserve the invariant `rarity = private ⇔ questId set and referencing a
live quest` (in its full §3 form, which also requires a null `questId`
for every non-private rarity). -/
theorem achievement_rarity_quest_binding :
    (∀ s (dto : CreateAchievementDto), achFindByTitle s dto.title = none →
      dto.rarity = "private" → dto.questId = none →
      achievementCreate s dto =
        (Except.error (Err.badRequest "Для rarity=\"private\" questId обязателен"), s)) ∧
    (∀ s (dto : CreateAchievementDto) q, achFindByTitle s dto.title = none →
      dto.rarity ≠ "private" → dto.questId = some q →
      achievementCreate s dto =
        (Except.error (Err.badRequest
          "Для rarity отличной от \"private\" questId должен быть null или отсутствовать"), s)) ∧
    (∀ s id (dto : UpdateAchievementDto) cur rr, findAchievementAlive s id = some cur →
      dto.title = none → dto.rarity = some rr → rr ≠ "private" →
      updateAchievementZodOk dto = true →
      ∃ a', (achievementUpdate s id dto).1 = Except.ok a' ∧ a'.questId = none ∧
        ((achievementUpdate s id dto).2).achievements =
          s.achievements.map (fun x =>
            if x.id == id && x.recordStatus != "DELETED" then a' else x)) ∧
    (∀ s id (dto : UpdateAchievementDto) cur n, findAchievementAlive s id = some cur →
      dto.title = none → dto.rarity = none → cur.rarity ≠ "private" →
      dto.questId = some (some n) → 1 ≤ n →
      achievementUpdate s id dto =
        (Except.error (Err.badRequest
          "Для rarity отличной от \"private\" questId должен быть null или отсутствовать"), s)) ∧
    (∀ s id (dto : UpdateAchievementDto) rr n, dto.rarity = some rr → rr ≠ "private" →
      dto.questId = some (some n) →
      achievementUpdate s id dto =
        (Except.error (Err.badRequest
          "Для rarity=\"private\" questId обязателен. Для других значений rarity questId должен быть null или отсутствовать"), s)) ∧
    (∀ s id (dto : UpdateAchievementDto) cur, findAchievementAlive s id = some cur →
      dto.title = none → dto.questId = none → cur.rarity = "private" → dto.rarity = none →
      ((cur.questId = none →
        achievementUpdate s id dto =
          (Except.error (Err.badRequest "Для rarity=\"private\" questId обязателен"), s)) ∧
       (∀ qq, cur.questId = some qq →
        ∃ a', (achievementUpdate s id dto).1 = Except.ok a' ∧ a'.questId = some qq))) ∧
    (∀ s (dto : CreateAchievementDto) r s', rarityQuestInvariant s →
      achievementCreate s dto = (Except.ok r, s') → rarityQuestInvariant s') ∧
    (∀ s id (dto : UpdateAchievementDto) r s', rarityQuestInvariant s →
      achievementUpdate s id dto = (Except.ok r, s') → rarityQuestInvariant s') := by
  refine ⟨?_, ?_, ?_, ?_, ?_, ?_, ?_, ?_⟩
  · intro s dto ht hr hqid
    unfold achievementCreate
    rw [ht]
    dsimp only
    rw [if_pos (by rw [hr]; rfl), hqid]
  · intro s dto q ht hr hqid
    unfold achievementCreate
    rw [ht]
    dsimp only
    rw [if_neg (by simpa using hr), hqid]
  · intro s id dto cur rr hcur ht2 hrar hne hz
    have heq : achievementUpdate s id dto =
        applyAchUpdate s id cur { dto with questId := some none } := by
      unfold achievementUpdate
      rw [if_pos hz]
      unfold achievementServiceUpdate
      rw [hcur]
      dsimp only
      rw [if_neg (by simp [ht2])]
      rw [if_neg (by rw [hrar]; simpa using hne)]
      rw [if_pos (by rw [hrar]; simpa using hne)]
    refine ⟨{ cur with
        title := dto.title.getD cur.title,
        description := match dto.description with | some d => some d | none => cur.description,
        icon := match dto.icon with | some i => some i | none => cur.icon,
        rarity := dto.rarity.getD cur.rarity,
        questId := none }, ?_, rfl, ?_⟩
    · rw [heq]
      unfold applyAchUpdate
      rfl
    · rw [heq]
      unfold applyAchUpdate
      rfl
  · intro s id dto cur n hcur ht2 hrar hcnp hqid hn
    have hz : updateAchievementZodOk dto = true := by
      unfold updateAchievementZodOk
      rw [hrar, hqid]
      simp [hn]
    unfold achievementUpdate
    rw [if_pos hz]
    unfold achievementServiceUpdate
    rw [hcur]
    dsimp only
    rw [if_neg (by simp [ht2])]
    rw [if_neg (by rw [hrar]; simpa using hcnp)]
    rw [if_neg (by simp [hrar])]
    rw [if_pos (by simp [hqid])]
  · intro s id dto rr n hrar hne hqid
    have hz : updateAchievementZodOk dto = false := by
      unfold updateAchievementZodOk
      rw [hrar, hqid]
      simp [hne]
    unfold achievementUpdate
    rw [if_neg (by simp [hz])]
  · intro s id dto cur hcur ht2 hqid hcp hrar
    have hz : updateAchievementZodOk dto = true := by
      unfold updateAchievementZodOk
      rw [hrar, hqid]
      simp
    constructor
    · intro hcq
      unfold achievementUpdate
      rw [if_pos hz]
      unfold achievementServiceUpdate
      rw [hcur]
      dsimp only
      rw [if_neg (by simp [ht2])]
      rw [if_pos (by rw [hrar]; simpa using hcp), hqid]
      dsimp only
      rw [if_pos (by rw [hcq]; rfl)]
    · intro qq hcq
      have heq : achievementUpdate s id dto = applyAchUpdate s id cur dto := by
        unfold achievementUpdate
        rw [if_pos hz]
        unfold achievementServiceUpdate
        rw [hcur]
        dsimp only
        rw [if_neg (by simp [ht2])]
        rw [if_pos (by rw [hrar]; simpa using hcp), hqid]
        dsimp only
        rw [if_neg (by rw [hcq]; simp)]
      refine ⟨{ cur with
          title := dto.title.getD cur.title,
          description := match dto.description with | some d => some d | none => cur.description,
          icon := match dto.icon with | some i => some i | none => cur.icon,
          rarity := dto.rarity.getD cur.rarity,
          questId := dto.questId.getD cur.questId }, ?_, ?_⟩
      · rw [heq]
        unfold applyAchUpdate
        rfl
      · simp [hqid, hcq]
  · intro s dto r s' hinv h
    exact achievementCreate_preserves_inv s dto r s' hinv h
  · intro s id dto r s' hinv h
    exact achievementUpdate_preserves_inv s id dto r s' hinv h


/-- C8 witness: creating a private achievement without a `questId` on the
fixture fails with `BadRequest` and changes nothing; updating the bound
private fixture achievement to rarity `common` succeeds and force-nulls
its `questId` in the stored row. -/
theorem achievement_rarity_quest_binding_witness :
    achievementCreate wDB { title := "X", rarity := "private" } =
      (Except.error (Err.badRequest "Для rarity=\"private\" questId обязателен"), wDB) ∧
    (∃ a', (achievementUpdate wAchDB 1 { rarity := some "common" }).1 = Except.ok a' ∧
      a'.questId = none ∧
      ((achievementUpdate wAchDB 1 { rarity := some "common" }).2).achievements =
        wAchDB.achievements.map (fun x =>
          if x.id == 1 && x.recordStatus != "DELETED" then a' else x)) := by
  constructor
  · exact achievement_rarity_quest_binding.1 wDB _ (by decide) rfl rfl
  · exact achievement_rarity_quest_binding.2.2.1 wAchDB 1 _ wAch "common"
      (by decide) rfl rfl (by decide) (by decide)

end AtomDbro
